import Mathlib

/-!
Verification of the error-state Kalman filter in `src/eskf.cpp` of the
`lidar_eskf` repository.

The C++ code is shallowly embedded over an arbitrary field `K` (instantiated
at `ℚ` for executable runs and at `ℝ` where exact trigonometry matters).
All matrix/vector types mirror the Eigen/tf types used by the source:
3-vectors and 3x3 matrices are structures of scalars, and the 15x15, 15x12,
12x12, 6x15, 15x6 and 6x6 matrices of the filter are structures of 3x3
blocks, multiplied blockwise.

External library routines (tf, Eigen) that the source calls are embedded
from their known library sources: `Matrix3x3::setRPY` / `setRotation` are
given by their closed-form arithmetic; the transcendental helpers
(`sin`/`cos` inside `setRPY`, `Matrix3x3::getRotation`'s matrix-to-quaternion
conversion, `Matrix3x3::getRPY`) are abstracted as a bundle `TfOps` of
function parameters, instantiated with real `sin`/`cos` where needed.
Eigen's `.inverse()` on a 6x6 matrix is embedded as the exact
adjugate-over-determinant inverse.
-/

namespace LidarEskf

set_option linter.unusedSectionVars false

/-- A 3-vector (`tf::Vector3` / `Eigen::Vector3d`). -/
structure Vec3 (K : Type) where
  x : K
  y : K
  z : K
deriving DecidableEq

/-- A 3x3 matrix (`tf::Matrix3x3` / 3x3 Eigen block), row major. -/
structure Mat3 (K : Type) where
  m00 : K
  m01 : K
  m02 : K
  m10 : K
  m11 : K
  m12 : K
  m20 : K
  m21 : K
  m22 : K
deriving DecidableEq

/-- A quaternion (`tf::Quaternion`), stored as x, y, z, w. -/
structure Quat (K : Type) where
  x : K
  y : K
  z : K
  w : K
deriving DecidableEq

variable {K : Type} [Field K]

instance : Zero (Vec3 K) := ⟨⟨0, 0, 0⟩⟩
instance : Add (Vec3 K) := ⟨fun a b => ⟨a.x + b.x, a.y + b.y, a.z + b.z⟩⟩
instance : Sub (Vec3 K) := ⟨fun a b => ⟨a.x - b.x, a.y - b.y, a.z - b.z⟩⟩
instance : Neg (Vec3 K) := ⟨fun a => ⟨-a.x, -a.y, -a.z⟩⟩

/-- Scalar multiple of a 3-vector (`v * c` on a `tf::Vector3`). -/
def Vec3.smul (v : Vec3 K) (c : K) : Vec3 K := ⟨v.x * c, v.y * c, v.z * c⟩

instance : Zero (Mat3 K) := ⟨⟨0, 0, 0, 0, 0, 0, 0, 0, 0⟩⟩
instance : One (Mat3 K) := ⟨⟨1, 0, 0, 0, 1, 0, 0, 0, 1⟩⟩

instance : Add (Mat3 K) :=
  ⟨fun a b =>
    ⟨a.m00 + b.m00, a.m01 + b.m01, a.m02 + b.m02,
     a.m10 + b.m10, a.m11 + b.m11, a.m12 + b.m12,
     a.m20 + b.m20, a.m21 + b.m21, a.m22 + b.m22⟩⟩

instance : Neg (Mat3 K) :=
  ⟨fun a =>
    ⟨-a.m00, -a.m01, -a.m02, -a.m10, -a.m11, -a.m12, -a.m20, -a.m21, -a.m22⟩⟩

instance : Sub (Mat3 K) := ⟨fun a b => a + -b⟩

instance : Mul (Mat3 K) :=
  ⟨fun a b =>
    ⟨a.m00 * b.m00 + a.m01 * b.m10 + a.m02 * b.m20,
     a.m00 * b.m01 + a.m01 * b.m11 + a.m02 * b.m21,
     a.m00 * b.m02 + a.m01 * b.m12 + a.m02 * b.m22,
     a.m10 * b.m00 + a.m11 * b.m10 + a.m12 * b.m20,
     a.m10 * b.m01 + a.m11 * b.m11 + a.m12 * b.m21,
     a.m10 * b.m02 + a.m11 * b.m12 + a.m12 * b.m22,
     a.m20 * b.m00 + a.m21 * b.m10 + a.m22 * b.m20,
     a.m20 * b.m01 + a.m21 * b.m11 + a.m22 * b.m21,
     a.m20 * b.m02 + a.m21 * b.m12 + a.m22 * b.m22⟩⟩

/-- Matrix-vector product (`tf::Matrix3x3 * tf::Vector3`). -/
def Mat3.mulVec (a : Mat3 K) (v : Vec3 K) : Vec3 K :=
  ⟨a.m00 * v.x + a.m01 * v.y + a.m02 * v.z,
   a.m10 * v.x + a.m11 * v.y + a.m12 * v.z,
   a.m20 * v.x + a.m21 * v.y + a.m22 * v.z⟩

/-- Transpose of a 3x3 matrix. -/
def Mat3.transpose (a : Mat3 K) : Mat3 K :=
  ⟨a.m00, a.m10, a.m20, a.m01, a.m11, a.m21, a.m02, a.m12, a.m22⟩

/-- Scalar multiple of a 3x3 matrix. -/
def Mat3.smul (c : K) (a : Mat3 K) : Mat3 K :=
  ⟨c * a.m00, c * a.m01, c * a.m02, c * a.m10, c * a.m11, c * a.m12,
   c * a.m20, c * a.m21, c * a.m22⟩

/-- A 15x15 matrix as a 5x5 grid of 3x3 blocks (error-state order: velocity, attitude, position, accel-bias, gyro-bias). -/
structure Mat15 (K : Type) where
  b00 : Mat3 K
  b01 : Mat3 K
  b02 : Mat3 K
  b03 : Mat3 K
  b04 : Mat3 K
  b10 : Mat3 K
  b11 : Mat3 K
  b12 : Mat3 K
  b13 : Mat3 K
  b14 : Mat3 K
  b20 : Mat3 K
  b21 : Mat3 K
  b22 : Mat3 K
  b23 : Mat3 K
  b24 : Mat3 K
  b30 : Mat3 K
  b31 : Mat3 K
  b32 : Mat3 K
  b33 : Mat3 K
  b34 : Mat3 K
  b40 : Mat3 K
  b41 : Mat3 K
  b42 : Mat3 K
  b43 : Mat3 K
  b44 : Mat3 K
deriving DecidableEq

/-- A 15x12 matrix as a 5x4 grid of 3x3 blocks (the noise-Jacobian shape). -/
structure Mat15x12 (K : Type) where
  b00 : Mat3 K
  b01 : Mat3 K
  b02 : Mat3 K
  b03 : Mat3 K
  b10 : Mat3 K
  b11 : Mat3 K
  b12 : Mat3 K
  b13 : Mat3 K
  b20 : Mat3 K
  b21 : Mat3 K
  b22 : Mat3 K
  b23 : Mat3 K
  b30 : Mat3 K
  b31 : Mat3 K
  b32 : Mat3 K
  b33 : Mat3 K
  b40 : Mat3 K
  b41 : Mat3 K
  b42 : Mat3 K
  b43 : Mat3 K
deriving DecidableEq

/-- A 12x12 matrix as a 4x4 grid of 3x3 blocks (the process-noise shape). -/
structure Mat12 (K : Type) where
  b00 : Mat3 K
  b01 : Mat3 K
  b02 : Mat3 K
  b03 : Mat3 K
  b10 : Mat3 K
  b11 : Mat3 K
  b12 : Mat3 K
  b13 : Mat3 K
  b20 : Mat3 K
  b21 : Mat3 K
  b22 : Mat3 K
  b23 : Mat3 K
  b30 : Mat3 K
  b31 : Mat3 K
  b32 : Mat3 K
  b33 : Mat3 K
deriving DecidableEq

/-- A 6x6 matrix as a 2x2 grid of 3x3 blocks. -/
structure Mat6 (K : Type) where
  b00 : Mat3 K
  b01 : Mat3 K
  b10 : Mat3 K
  b11 : Mat3 K
deriving DecidableEq

/-- A 6x15 matrix as a 2x5 grid of 3x3 blocks (the observation-matrix shape). -/
structure Mat6x15 (K : Type) where
  b00 : Mat3 K
  b01 : Mat3 K
  b02 : Mat3 K
  b03 : Mat3 K
  b04 : Mat3 K
  b10 : Mat3 K
  b11 : Mat3 K
  b12 : Mat3 K
  b13 : Mat3 K
  b14 : Mat3 K
deriving DecidableEq

/-- A 15x6 matrix as a 5x2 grid of 3x3 blocks (the Kalman-gain shape). -/
structure Mat15x6 (K : Type) where
  b00 : Mat3 K
  b01 : Mat3 K
  b10 : Mat3 K
  b11 : Mat3 K
  b20 : Mat3 K
  b21 : Mat3 K
  b30 : Mat3 K
  b31 : Mat3 K
  b40 : Mat3 K
  b41 : Mat3 K
deriving DecidableEq

/-- A 15-vector as five 3-blocks (the error-state mean). -/
structure Vec15 (K : Type) where
  v0 : Vec3 K
  v1 : Vec3 K
  v2 : Vec3 K
  v3 : Vec3 K
  v4 : Vec3 K
deriving DecidableEq

/-- A 6-vector as two 3-blocks (the pose observation). -/
structure Vec6 (K : Type) where
  v0 : Vec3 K
  v1 : Vec3 K
deriving DecidableEq

variable {K : Type} [Field K]

instance : Zero (Mat15 K) := ⟨⟨0, 0, 0, 0, 0, 0, 0, 0, 0, 0, 0, 0, 0, 0, 0, 0, 0, 0, 0, 0, 0, 0, 0, 0, 0⟩⟩

instance : Zero (Mat15x12 K) := ⟨⟨0, 0, 0, 0, 0, 0, 0, 0, 0, 0, 0, 0, 0, 0, 0, 0, 0, 0, 0, 0⟩⟩

instance : Zero (Mat12 K) := ⟨⟨0, 0, 0, 0, 0, 0, 0, 0, 0, 0, 0, 0, 0, 0, 0, 0⟩⟩

instance : Zero (Mat6 K) := ⟨⟨0, 0, 0, 0⟩⟩

instance : Zero (Mat6x15 K) := ⟨⟨0, 0, 0, 0, 0, 0, 0, 0, 0, 0⟩⟩

instance : Zero (Mat15x6 K) := ⟨⟨0, 0, 0, 0, 0, 0, 0, 0, 0, 0⟩⟩

instance : Zero (Vec15 K) := ⟨⟨0, 0, 0, 0, 0⟩⟩

instance : Zero (Vec6 K) := ⟨⟨0, 0⟩⟩

instance : One (Mat15 K) := ⟨⟨1, 0, 0, 0, 0, 0, 1, 0, 0, 0, 0, 0, 1, 0, 0, 0, 0, 0, 1, 0, 0, 0, 0, 0, 1⟩⟩

instance : One (Mat6 K) := ⟨⟨1, 0, 0, 1⟩⟩

instance : Add (Mat15 K) :=
  ⟨fun a b =>
    ⟨a.b00 + b.b00,
     a.b01 + b.b01,
     a.b02 + b.b02,
     a.b03 + b.b03,
     a.b04 + b.b04,
     a.b10 + b.b10,
     a.b11 + b.b11,
     a.b12 + b.b12,
     a.b13 + b.b13,
     a.b14 + b.b14,
     a.b20 + b.b20,
     a.b21 + b.b21,
     a.b22 + b.b22,
     a.b23 + b.b23,
     a.b24 + b.b24,
     a.b30 + b.b30,
     a.b31 + b.b31,
     a.b32 + b.b32,
     a.b33 + b.b33,
     a.b34 + b.b34,
     a.b40 + b.b40,
     a.b41 + b.b41,
     a.b42 + b.b42,
     a.b43 + b.b43,
     a.b44 + b.b44⟩
  ⟩

instance : Add (Mat6 K) :=
  ⟨fun a b =>
    ⟨a.b00 + b.b00,
     a.b01 + b.b01,
     a.b10 + b.b10,
     a.b11 + b.b11⟩
  ⟩

instance : Sub (Mat15 K) :=
  ⟨fun a b =>
    ⟨a.b00 - b.b00,
     a.b01 - b.b01,
     a.b02 - b.b02,
     a.b03 - b.b03,
     a.b04 - b.b04,
     a.b10 - b.b10,
     a.b11 - b.b11,
     a.b12 - b.b12,
     a.b13 - b.b13,
     a.b14 - b.b14,
     a.b20 - b.b20,
     a.b21 - b.b21,
     a.b22 - b.b22,
     a.b23 - b.b23,
     a.b24 - b.b24,
     a.b30 - b.b30,
     a.b31 - b.b31,
     a.b32 - b.b32,
     a.b33 - b.b33,
     a.b34 - b.b34,
     a.b40 - b.b40,
     a.b41 - b.b41,
     a.b42 - b.b42,
     a.b43 - b.b43,
     a.b44 - b.b44⟩
  ⟩

instance : Sub (Vec6 K) := ⟨fun a b => ⟨a.v0 - b.v0, a.v1 - b.v1⟩⟩

/-- Product of two 15x15 block matrices. -/
def mul15 (a : Mat15 K) (b : Mat15 K) : Mat15 K :=
  ⟨a.b00 * b.b00 + a.b01 * b.b10 + a.b02 * b.b20 + a.b03 * b.b30 + a.b04 * b.b40,
   a.b00 * b.b01 + a.b01 * b.b11 + a.b02 * b.b21 + a.b03 * b.b31 + a.b04 * b.b41,
   a.b00 * b.b02 + a.b01 * b.b12 + a.b02 * b.b22 + a.b03 * b.b32 + a.b04 * b.b42,
   a.b00 * b.b03 + a.b01 * b.b13 + a.b02 * b.b23 + a.b03 * b.b33 + a.b04 * b.b43,
   a.b00 * b.b04 + a.b01 * b.b14 + a.b02 * b.b24 + a.b03 * b.b34 + a.b04 * b.b44,
   a.b10 * b.b00 + a.b11 * b.b10 + a.b12 * b.b20 + a.b13 * b.b30 + a.b14 * b.b40,
   a.b10 * b.b01 + a.b11 * b.b11 + a.b12 * b.b21 + a.b13 * b.b31 + a.b14 * b.b41,
   a.b10 * b.b02 + a.b11 * b.b12 + a.b12 * b.b22 + a.b13 * b.b32 + a.b14 * b.b42,
   a.b10 * b.b03 + a.b11 * b.b13 + a.b12 * b.b23 + a.b13 * b.b33 + a.b14 * b.b43,
   a.b10 * b.b04 + a.b11 * b.b14 + a.b12 * b.b24 + a.b13 * b.b34 + a.b14 * b.b44,
   a.b20 * b.b00 + a.b21 * b.b10 + a.b22 * b.b20 + a.b23 * b.b30 + a.b24 * b.b40,
   a.b20 * b.b01 + a.b21 * b.b11 + a.b22 * b.b21 + a.b23 * b.b31 + a.b24 * b.b41,
   a.b20 * b.b02 + a.b21 * b.b12 + a.b22 * b.b22 + a.b23 * b.b32 + a.b24 * b.b42,
   a.b20 * b.b03 + a.b21 * b.b13 + a.b22 * b.b23 + a.b23 * b.b33 + a.b24 * b.b43,
   a.b20 * b.b04 + a.b21 * b.b14 + a.b22 * b.b24 + a.b23 * b.b34 + a.b24 * b.b44,
   a.b30 * b.b00 + a.b31 * b.b10 + a.b32 * b.b20 + a.b33 * b.b30 + a.b34 * b.b40,
   a.b30 * b.b01 + a.b31 * b.b11 + a.b32 * b.b21 + a.b33 * b.b31 + a.b34 * b.b41,
   a.b30 * b.b02 + a.b31 * b.b12 + a.b32 * b.b22 + a.b33 * b.b32 + a.b34 * b.b42,
   a.b30 * b.b03 + a.b31 * b.b13 + a.b32 * b.b23 + a.b33 * b.b33 + a.b34 * b.b43,
   a.b30 * b.b04 + a.b31 * b.b14 + a.b32 * b.b24 + a.b33 * b.b34 + a.b34 * b.b44,
   a.b40 * b.b00 + a.b41 * b.b10 + a.b42 * b.b20 + a.b43 * b.b30 + a.b44 * b.b40,
   a.b40 * b.b01 + a.b41 * b.b11 + a.b42 * b.b21 + a.b43 * b.b31 + a.b44 * b.b41,
   a.b40 * b.b02 + a.b41 * b.b12 + a.b42 * b.b22 + a.b43 * b.b32 + a.b44 * b.b42,
   a.b40 * b.b03 + a.b41 * b.b13 + a.b42 * b.b23 + a.b43 * b.b33 + a.b44 * b.b43,
   a.b40 * b.b04 + a.b41 * b.b14 + a.b42 * b.b24 + a.b43 * b.b34 + a.b44 * b.b44⟩

/-- Product `A * Bᵀ` of two 15x15 block matrices. -/
def mulABt15 (a : Mat15 K) (b : Mat15 K) : Mat15 K :=
  ⟨a.b00 * b.b00.transpose + a.b01 * b.b01.transpose + a.b02 * b.b02.transpose + a.b03 * b.b03.transpose + a.b04 * b.b04.transpose,
   a.b00 * b.b10.transpose + a.b01 * b.b11.transpose + a.b02 * b.b12.transpose + a.b03 * b.b13.transpose + a.b04 * b.b14.transpose,
   a.b00 * b.b20.transpose + a.b01 * b.b21.transpose + a.b02 * b.b22.transpose + a.b03 * b.b23.transpose + a.b04 * b.b24.transpose,
   a.b00 * b.b30.transpose + a.b01 * b.b31.transpose + a.b02 * b.b32.transpose + a.b03 * b.b33.transpose + a.b04 * b.b34.transpose,
   a.b00 * b.b40.transpose + a.b01 * b.b41.transpose + a.b02 * b.b42.transpose + a.b03 * b.b43.transpose + a.b04 * b.b44.transpose,
   a.b10 * b.b00.transpose + a.b11 * b.b01.transpose + a.b12 * b.b02.transpose + a.b13 * b.b03.transpose + a.b14 * b.b04.transpose,
   a.b10 * b.b10.transpose + a.b11 * b.b11.transpose + a.b12 * b.b12.transpose + a.b13 * b.b13.transpose + a.b14 * b.b14.transpose,
   a.b10 * b.b20.transpose + a.b11 * b.b21.transpose + a.b12 * b.b22.transpose + a.b13 * b.b23.transpose + a.b14 * b.b24.transpose,
   a.b10 * b.b30.transpose + a.b11 * b.b31.transpose + a.b12 * b.b32.transpose + a.b13 * b.b33.transpose + a.b14 * b.b34.transpose,
   a.b10 * b.b40.transpose + a.b11 * b.b41.transpose + a.b12 * b.b42.transpose + a.b13 * b.b43.transpose + a.b14 * b.b44.transpose,
   a.b20 * b.b00.transpose + a.b21 * b.b01.transpose + a.b22 * b.b02.transpose + a.b23 * b.b03.transpose + a.b24 * b.b04.transpose,
   a.b20 * b.b10.transpose + a.b21 * b.b11.transpose + a.b22 * b.b12.transpose + a.b23 * b.b13.transpose + a.b24 * b.b14.transpose,
   a.b20 * b.b20.transpose + a.b21 * b.b21.transpose + a.b22 * b.b22.transpose + a.b23 * b.b23.transpose + a.b24 * b.b24.transpose,
   a.b20 * b.b30.transpose + a.b21 * b.b31.transpose + a.b22 * b.b32.transpose + a.b23 * b.b33.transpose + a.b24 * b.b34.transpose,
   a.b20 * b.b40.transpose + a.b21 * b.b41.transpose + a.b22 * b.b42.transpose + a.b23 * b.b43.transpose + a.b24 * b.b44.transpose,
   a.b30 * b.b00.transpose + a.b31 * b.b01.transpose + a.b32 * b.b02.transpose + a.b33 * b.b03.transpose + a.b34 * b.b04.transpose,
   a.b30 * b.b10.transpose + a.b31 * b.b11.transpose + a.b32 * b.b12.transpose + a.b33 * b.b13.transpose + a.b34 * b.b14.transpose,
   a.b30 * b.b20.transpose + a.b31 * b.b21.transpose + a.b32 * b.b22.transpose + a.b33 * b.b23.transpose + a.b34 * b.b24.transpose,
   a.b30 * b.b30.transpose + a.b31 * b.b31.transpose + a.b32 * b.b32.transpose + a.b33 * b.b33.transpose + a.b34 * b.b34.transpose,
   a.b30 * b.b40.transpose + a.b31 * b.b41.transpose + a.b32 * b.b42.transpose + a.b33 * b.b43.transpose + a.b34 * b.b44.transpose,
   a.b40 * b.b00.transpose + a.b41 * b.b01.transpose + a.b42 * b.b02.transpose + a.b43 * b.b03.transpose + a.b44 * b.b04.transpose,
   a.b40 * b.b10.transpose + a.b41 * b.b11.transpose + a.b42 * b.b12.transpose + a.b43 * b.b13.transpose + a.b44 * b.b14.transpose,
   a.b40 * b.b20.transpose + a.b41 * b.b21.transpose + a.b42 * b.b22.transpose + a.b43 * b.b23.transpose + a.b44 * b.b24.transpose,
   a.b40 * b.b30.transpose + a.b41 * b.b31.transpose + a.b42 * b.b32.transpose + a.b43 * b.b33.transpose + a.b44 * b.b34.transpose,
   a.b40 * b.b40.transpose + a.b41 * b.b41.transpose + a.b42 * b.b42.transpose + a.b43 * b.b43.transpose + a.b44 * b.b44.transpose⟩

/-- Product of a 15x12 and a 12x12 block matrix. -/
def mul1512x12 (a : Mat15x12 K) (b : Mat12 K) : Mat15x12 K :=
  ⟨a.b00 * b.b00 + a.b01 * b.b10 + a.b02 * b.b20 + a.b03 * b.b30,
   a.b00 * b.b01 + a.b01 * b.b11 + a.b02 * b.b21 + a.b03 * b.b31,
   a.b00 * b.b02 + a.b01 * b.b12 + a.b02 * b.b22 + a.b03 * b.b32,
   a.b00 * b.b03 + a.b01 * b.b13 + a.b02 * b.b23 + a.b03 * b.b33,
   a.b10 * b.b00 + a.b11 * b.b10 + a.b12 * b.b20 + a.b13 * b.b30,
   a.b10 * b.b01 + a.b11 * b.b11 + a.b12 * b.b21 + a.b13 * b.b31,
   a.b10 * b.b02 + a.b11 * b.b12 + a.b12 * b.b22 + a.b13 * b.b32,
   a.b10 * b.b03 + a.b11 * b.b13 + a.b12 * b.b23 + a.b13 * b.b33,
   a.b20 * b.b00 + a.b21 * b.b10 + a.b22 * b.b20 + a.b23 * b.b30,
   a.b20 * b.b01 + a.b21 * b.b11 + a.b22 * b.b21 + a.b23 * b.b31,
   a.b20 * b.b02 + a.b21 * b.b12 + a.b22 * b.b22 + a.b23 * b.b32,
   a.b20 * b.b03 + a.b21 * b.b13 + a.b22 * b.b23 + a.b23 * b.b33,
   a.b30 * b.b00 + a.b31 * b.b10 + a.b32 * b.b20 + a.b33 * b.b30,
   a.b30 * b.b01 + a.b31 * b.b11 + a.b32 * b.b21 + a.b33 * b.b31,
   a.b30 * b.b02 + a.b31 * b.b12 + a.b32 * b.b22 + a.b33 * b.b32,
   a.b30 * b.b03 + a.b31 * b.b13 + a.b32 * b.b23 + a.b33 * b.b33,
   a.b40 * b.b00 + a.b41 * b.b10 + a.b42 * b.b20 + a.b43 * b.b30,
   a.b40 * b.b01 + a.b41 * b.b11 + a.b42 * b.b21 + a.b43 * b.b31,
   a.b40 * b.b02 + a.b41 * b.b12 + a.b42 * b.b22 + a.b43 * b.b32,
   a.b40 * b.b03 + a.b41 * b.b13 + a.b42 * b.b23 + a.b43 * b.b33⟩

/-- Product `A * Bᵀ` of two 15x12 block matrices, a 15x15 result. -/
def mulABt1512 (a : Mat15x12 K) (b : Mat15x12 K) : Mat15 K :=
  ⟨a.b00 * b.b00.transpose + a.b01 * b.b01.transpose + a.b02 * b.b02.transpose + a.b03 * b.b03.transpose,
   a.b00 * b.b10.transpose + a.b01 * b.b11.transpose + a.b02 * b.b12.transpose + a.b03 * b.b13.transpose,
   a.b00 * b.b20.transpose + a.b01 * b.b21.transpose + a.b02 * b.b22.transpose + a.b03 * b.b23.transpose,
   a.b00 * b.b30.transpose + a.b01 * b.b31.transpose + a.b02 * b.b32.transpose + a.b03 * b.b33.transpose,
   a.b00 * b.b40.transpose + a.b01 * b.b41.transpose + a.b02 * b.b42.transpose + a.b03 * b.b43.transpose,
   a.b10 * b.b00.transpose + a.b11 * b.b01.transpose + a.b12 * b.b02.transpose + a.b13 * b.b03.transpose,
   a.b10 * b.b10.transpose + a.b11 * b.b11.transpose + a.b12 * b.b12.transpose + a.b13 * b.b13.transpose,
   a.b10 * b.b20.transpose + a.b11 * b.b21.transpose + a.b12 * b.b22.transpose + a.b13 * b.b23.transpose,
   a.b10 * b.b30.transpose + a.b11 * b.b31.transpose + a.b12 * b.b32.transpose + a.b13 * b.b33.transpose,
   a.b10 * b.b40.transpose + a.b11 * b.b41.transpose + a.b12 * b.b42.transpose + a.b13 * b.b43.transpose,
   a.b20 * b.b00.transpose + a.b21 * b.b01.transpose + a.b22 * b.b02.transpose + a.b23 * b.b03.transpose,
   a.b20 * b.b10.transpose + a.b21 * b.b11.transpose + a.b22 * b.b12.transpose + a.b23 * b.b13.transpose,
   a.b20 * b.b20.transpose + a.b21 * b.b21.transpose + a.b22 * b.b22.transpose + a.b23 * b.b23.transpose,
   a.b20 * b.b30.transpose + a.b21 * b.b31.transpose + a.b22 * b.b32.transpose + a.b23 * b.b33.transpose,
   a.b20 * b.b40.transpose + a.b21 * b.b41.transpose + a.b22 * b.b42.transpose + a.b23 * b.b43.transpose,
   a.b30 * b.b00.transpose + a.b31 * b.b01.transpose + a.b32 * b.b02.transpose + a.b33 * b.b03.transpose,
   a.b30 * b.b10.transpose + a.b31 * b.b11.transpose + a.b32 * b.b12.transpose + a.b33 * b.b13.transpose,
   a.b30 * b.b20.transpose + a.b31 * b.b21.transpose + a.b32 * b.b22.transpose + a.b33 * b.b23.transpose,
   a.b30 * b.b30.transpose + a.b31 * b.b31.transpose + a.b32 * b.b32.transpose + a.b33 * b.b33.transpose,
   a.b30 * b.b40.transpose + a.b31 * b.b41.transpose + a.b32 * b.b42.transpose + a.b33 * b.b43.transpose,
   a.b40 * b.b00.transpose + a.b41 * b.b01.transpose + a.b42 * b.b02.transpose + a.b43 * b.b03.transpose,
   a.b40 * b.b10.transpose + a.b41 * b.b11.transpose + a.b42 * b.b12.transpose + a.b43 * b.b13.transpose,
   a.b40 * b.b20.transpose + a.b41 * b.b21.transpose + a.b42 * b.b22.transpose + a.b43 * b.b23.transpose,
   a.b40 * b.b30.transpose + a.b41 * b.b31.transpose + a.b42 * b.b32.transpose + a.b43 * b.b33.transpose,
   a.b40 * b.b40.transpose + a.b41 * b.b41.transpose + a.b42 * b.b42.transpose + a.b43 * b.b43.transpose⟩

/-- Product of a 6x15 and a 15x15 block matrix. -/
def mul615x15 (a : Mat6x15 K) (b : Mat15 K) : Mat6x15 K :=
  ⟨a.b00 * b.b00 + a.b01 * b.b10 + a.b02 * b.b20 + a.b03 * b.b30 + a.b04 * b.b40,
   a.b00 * b.b01 + a.b01 * b.b11 + a.b02 * b.b21 + a.b03 * b.b31 + a.b04 * b.b41,
   a.b00 * b.b02 + a.b01 * b.b12 + a.b02 * b.b22 + a.b03 * b.b32 + a.b04 * b.b42,
   a.b00 * b.b03 + a.b01 * b.b13 + a.b02 * b.b23 + a.b03 * b.b33 + a.b04 * b.b43,
   a.b00 * b.b04 + a.b01 * b.b14 + a.b02 * b.b24 + a.b03 * b.b34 + a.b04 * b.b44,
   a.b10 * b.b00 + a.b11 * b.b10 + a.b12 * b.b20 + a.b13 * b.b30 + a.b14 * b.b40,
   a.b10 * b.b01 + a.b11 * b.b11 + a.b12 * b.b21 + a.b13 * b.b31 + a.b14 * b.b41,
   a.b10 * b.b02 + a.b11 * b.b12 + a.b12 * b.b22 + a.b13 * b.b32 + a.b14 * b.b42,
   a.b10 * b.b03 + a.b11 * b.b13 + a.b12 * b.b23 + a.b13 * b.b33 + a.b14 * b.b43,
   a.b10 * b.b04 + a.b11 * b.b14 + a.b12 * b.b24 + a.b13 * b.b34 + a.b14 * b.b44⟩

/-- Product `A * Bᵀ` of two 6x15 block matrices, a 6x6 result. -/
def mulABt615 (a : Mat6x15 K) (b : Mat6x15 K) : Mat6 K :=
  ⟨a.b00 * b.b00.transpose + a.b01 * b.b01.transpose + a.b02 * b.b02.transpose + a.b03 * b.b03.transpose + a.b04 * b.b04.transpose,
   a.b00 * b.b10.transpose + a.b01 * b.b11.transpose + a.b02 * b.b12.transpose + a.b03 * b.b13.transpose + a.b04 * b.b14.transpose,
   a.b10 * b.b00.transpose + a.b11 * b.b01.transpose + a.b12 * b.b02.transpose + a.b13 * b.b03.transpose + a.b14 * b.b04.transpose,
   a.b10 * b.b10.transpose + a.b11 * b.b11.transpose + a.b12 * b.b12.transpose + a.b13 * b.b13.transpose + a.b14 * b.b14.transpose⟩

/-- Product `A * Bᵀ` of a 15x15 and a 6x15 block matrix, a 15x6 result. -/
def mulABt15x615 (a : Mat15 K) (b : Mat6x15 K) : Mat15x6 K :=
  ⟨a.b00 * b.b00.transpose + a.b01 * b.b01.transpose + a.b02 * b.b02.transpose + a.b03 * b.b03.transpose + a.b04 * b.b04.transpose,
   a.b00 * b.b10.transpose + a.b01 * b.b11.transpose + a.b02 * b.b12.transpose + a.b03 * b.b13.transpose + a.b04 * b.b14.transpose,
   a.b10 * b.b00.transpose + a.b11 * b.b01.transpose + a.b12 * b.b02.transpose + a.b13 * b.b03.transpose + a.b14 * b.b04.transpose,
   a.b10 * b.b10.transpose + a.b11 * b.b11.transpose + a.b12 * b.b12.transpose + a.b13 * b.b13.transpose + a.b14 * b.b14.transpose,
   a.b20 * b.b00.transpose + a.b21 * b.b01.transpose + a.b22 * b.b02.transpose + a.b23 * b.b03.transpose + a.b24 * b.b04.transpose,
   a.b20 * b.b10.transpose + a.b21 * b.b11.transpose + a.b22 * b.b12.transpose + a.b23 * b.b13.transpose + a.b24 * b.b14.transpose,
   a.b30 * b.b00.transpose + a.b31 * b.b01.transpose + a.b32 * b.b02.transpose + a.b33 * b.b03.transpose + a.b34 * b.b04.transpose,
   a.b30 * b.b10.transpose + a.b31 * b.b11.transpose + a.b32 * b.b12.transpose + a.b33 * b.b13.transpose + a.b34 * b.b14.transpose,
   a.b40 * b.b00.transpose + a.b41 * b.b01.transpose + a.b42 * b.b02.transpose + a.b43 * b.b03.transpose + a.b44 * b.b04.transpose,
   a.b40 * b.b10.transpose + a.b41 * b.b11.transpose + a.b42 * b.b12.transpose + a.b43 * b.b13.transpose + a.b44 * b.b14.transpose⟩

/-- Product of a 15x6 and a 6x6 block matrix. -/
def mul156x6 (a : Mat15x6 K) (b : Mat6 K) : Mat15x6 K :=
  ⟨a.b00 * b.b00 + a.b01 * b.b10,
   a.b00 * b.b01 + a.b01 * b.b11,
   a.b10 * b.b00 + a.b11 * b.b10,
   a.b10 * b.b01 + a.b11 * b.b11,
   a.b20 * b.b00 + a.b21 * b.b10,
   a.b20 * b.b01 + a.b21 * b.b11,
   a.b30 * b.b00 + a.b31 * b.b10,
   a.b30 * b.b01 + a.b31 * b.b11,
   a.b40 * b.b00 + a.b41 * b.b10,
   a.b40 * b.b01 + a.b41 * b.b11⟩

/-- Product of a 15x6 and a 6x15 block matrix, a 15x15 result. -/
def mul156x615 (a : Mat15x6 K) (b : Mat6x15 K) : Mat15 K :=
  ⟨a.b00 * b.b00 + a.b01 * b.b10,
   a.b00 * b.b01 + a.b01 * b.b11,
   a.b00 * b.b02 + a.b01 * b.b12,
   a.b00 * b.b03 + a.b01 * b.b13,
   a.b00 * b.b04 + a.b01 * b.b14,
   a.b10 * b.b00 + a.b11 * b.b10,
   a.b10 * b.b01 + a.b11 * b.b11,
   a.b10 * b.b02 + a.b11 * b.b12,
   a.b10 * b.b03 + a.b11 * b.b13,
   a.b10 * b.b04 + a.b11 * b.b14,
   a.b20 * b.b00 + a.b21 * b.b10,
   a.b20 * b.b01 + a.b21 * b.b11,
   a.b20 * b.b02 + a.b21 * b.b12,
   a.b20 * b.b03 + a.b21 * b.b13,
   a.b20 * b.b04 + a.b21 * b.b14,
   a.b30 * b.b00 + a.b31 * b.b10,
   a.b30 * b.b01 + a.b31 * b.b11,
   a.b30 * b.b02 + a.b31 * b.b12,
   a.b30 * b.b03 + a.b31 * b.b13,
   a.b30 * b.b04 + a.b31 * b.b14,
   a.b40 * b.b00 + a.b41 * b.b10,
   a.b40 * b.b01 + a.b41 * b.b11,
   a.b40 * b.b02 + a.b41 * b.b12,
   a.b40 * b.b03 + a.b41 * b.b13,
   a.b40 * b.b04 + a.b41 * b.b14⟩

/-- Product `A * Bᵀ` of two 15x6 block matrices, a 15x15 result. -/
def mulABt156 (a : Mat15x6 K) (b : Mat15x6 K) : Mat15 K :=
  ⟨a.b00 * b.b00.transpose + a.b01 * b.b01.transpose,
   a.b00 * b.b10.transpose + a.b01 * b.b11.transpose,
   a.b00 * b.b20.transpose + a.b01 * b.b21.transpose,
   a.b00 * b.b30.transpose + a.b01 * b.b31.transpose,
   a.b00 * b.b40.transpose + a.b01 * b.b41.transpose,
   a.b10 * b.b00.transpose + a.b11 * b.b01.transpose,
   a.b10 * b.b10.transpose + a.b11 * b.b11.transpose,
   a.b10 * b.b20.transpose + a.b11 * b.b21.transpose,
   a.b10 * b.b30.transpose + a.b11 * b.b31.transpose,
   a.b10 * b.b40.transpose + a.b11 * b.b41.transpose,
   a.b20 * b.b00.transpose + a.b21 * b.b01.transpose,
   a.b20 * b.b10.transpose + a.b21 * b.b11.transpose,
   a.b20 * b.b20.transpose + a.b21 * b.b21.transpose,
   a.b20 * b.b30.transpose + a.b21 * b.b31.transpose,
   a.b20 * b.b40.transpose + a.b21 * b.b41.transpose,
   a.b30 * b.b00.transpose + a.b31 * b.b01.transpose,
   a.b30 * b.b10.transpose + a.b31 * b.b11.transpose,
   a.b30 * b.b20.transpose + a.b31 * b.b21.transpose,
   a.b30 * b.b30.transpose + a.b31 * b.b31.transpose,
   a.b30 * b.b40.transpose + a.b31 * b.b41.transpose,
   a.b40 * b.b00.transpose + a.b41 * b.b01.transpose,
   a.b40 * b.b10.transpose + a.b41 * b.b11.transpose,
   a.b40 * b.b20.transpose + a.b41 * b.b21.transpose,
   a.b40 * b.b30.transpose + a.b41 * b.b31.transpose,
   a.b40 * b.b40.transpose + a.b41 * b.b41.transpose⟩

/-- Product of two 6x6 block matrices. -/
def mul6 (a : Mat6 K) (b : Mat6 K) : Mat6 K :=
  ⟨a.b00 * b.b00 + a.b01 * b.b10,
   a.b00 * b.b01 + a.b01 * b.b11,
   a.b10 * b.b00 + a.b11 * b.b10,
   a.b10 * b.b01 + a.b11 * b.b11⟩

/-- Transpose of a 15x15 block matrix. -/
def transpose15 (a : Mat15 K) : Mat15 K :=
  ⟨a.b00.transpose,
   a.b10.transpose,
   a.b20.transpose,
   a.b30.transpose,
   a.b40.transpose,
   a.b01.transpose,
   a.b11.transpose,
   a.b21.transpose,
   a.b31.transpose,
   a.b41.transpose,
   a.b02.transpose,
   a.b12.transpose,
   a.b22.transpose,
   a.b32.transpose,
   a.b42.transpose,
   a.b03.transpose,
   a.b13.transpose,
   a.b23.transpose,
   a.b33.transpose,
   a.b43.transpose,
   a.b04.transpose,
   a.b14.transpose,
   a.b24.transpose,
   a.b34.transpose,
   a.b44.transpose⟩

/-- Product of a 6x15 block matrix and a 15-vector. -/
def mulVec615 (a : Mat6x15 K) (v : Vec15 K) : Vec6 K :=
  ⟨a.b00.mulVec v.v0 + a.b01.mulVec v.v1 + a.b02.mulVec v.v2 + a.b03.mulVec v.v3 + a.b04.mulVec v.v4,
   a.b10.mulVec v.v0 + a.b11.mulVec v.v1 + a.b12.mulVec v.v2 + a.b13.mulVec v.v3 + a.b14.mulVec v.v4⟩

/-- Product of a 15x6 block matrix and a 6-vector. -/
def mulVec156 (a : Mat15x6 K) (v : Vec6 K) : Vec15 K :=
  ⟨a.b00.mulVec v.v0 + a.b01.mulVec v.v1,
   a.b10.mulVec v.v0 + a.b11.mulVec v.v1,
   a.b20.mulVec v.v0 + a.b21.mulVec v.v1,
   a.b30.mulVec v.v0 + a.b31.mulVec v.v1,
   a.b40.mulVec v.v0 + a.b41.mulVec v.v1⟩


/-- Row `i` of a `Mat3` as a plain list (used for the 6x6 determinant). -/
def Mat3.r0 (a : Mat3 K) : List K := [a.m00, a.m01, a.m02]

/-- Second row of a `Mat3` as a plain list. -/
def Mat3.r1 (a : Mat3 K) : List K := [a.m10, a.m11, a.m12]

/-- Third row of a `Mat3` as a plain list. -/
def Mat3.r2 (a : Mat3 K) : List K := [a.m20, a.m21, a.m22]

/-- The six rows of a 6x6 block matrix as plain lists of scalars. -/
def Mat6.toRows (m : Mat6 K) : List (List K) :=
  [m.b00.r0 ++ m.b01.r0, m.b00.r1 ++ m.b01.r1, m.b00.r2 ++ m.b01.r2,
   m.b10.r0 ++ m.b11.r0, m.b10.r1 ++ m.b11.r1, m.b10.r2 ++ m.b11.r2]

/-- Determinant of a square matrix given as a list of rows, by Laplace
expansion along the first row; `fuel` bounds the recursion depth. -/
def detAux (fuel : ℕ) : List (List K) → K :=
  match fuel with
  | 0 => fun _ => 1
  | n + 1 => fun rows =>
    match rows with
    | [] => 1
    | r :: rs =>
      (List.range r.length).foldl
        (fun acc j =>
          acc + (if j % 2 = 0 then (1 : K) else -1) * r.getD j 0 *
            detAux n (rs.map (fun row => row.eraseIdx j))) 0

/-- Determinant of a 6x6 block matrix (exact). -/
def det6 (m : Mat6 K) : K := detAux 6 m.toRows

/-- Minor of a list-of-rows matrix: delete row `i` and column `j`. -/
def minorL (rows : List (List K)) (i j : ℕ) : List (List K) :=
  (rows.eraseIdx i).map (fun r => r.eraseIdx j)

/-- Build a 6x6 block matrix from an entry function (row, column). -/
def Mat6.ofFun (f : ℕ → ℕ → K) : Mat6 K :=
  ⟨⟨f 0 0, f 0 1, f 0 2, f 1 0, f 1 1, f 1 2, f 2 0, f 2 1, f 2 2⟩,
   ⟨f 0 3, f 0 4, f 0 5, f 1 3, f 1 4, f 1 5, f 2 3, f 2 4, f 2 5⟩,
   ⟨f 3 0, f 3 1, f 3 2, f 4 0, f 4 1, f 4 2, f 5 0, f 5 1, f 5 2⟩,
   ⟨f 3 3, f 3 4, f 3 5, f 4 3, f 4 4, f 4 5, f 5 3, f 5 4, f 5 5⟩⟩

/-- Exact inverse of a 6x6 matrix via adjugate over determinant; this embeds
Eigen's `.inverse()` on an invertible 6x6 `Eigen::Matrix` (on a singular
input Eigen's result is unspecified, here it is the junk value with `1/0 = 0`). -/
def inv6 (m : Mat6 K) : Mat6 K :=
  let rows := m.toRows
  let d := det6 m
  Mat6.ofFun (fun i j =>
    (if (i + j) % 2 = 0 then (1 : K) else -1) * detAux 5 (minorL rows j i) / d)

/-- The transcendental tf helpers used by `eskf.cpp`, abstracted as function
parameters: `sin`/`cos` feed `tf::Matrix3x3::setRPY`; `matToQuat` is
`tf::Matrix3x3::getRotation` (matrix to unit quaternion, uses square roots);
`rpyOfMat` is `tf::Matrix3x3::getRPY` (matrix to roll/pitch/yaw, uses
`atan2`/`asin`). Instantiated with the exact real functions where needed. -/
structure TfOps (K : Type) where
  sin : K → K
  cos : K → K
  matToQuat : Mat3 K → Quat K
  rpyOfMat : Mat3 K → Vec3 K

/-- `tf::Matrix3x3::setRPY(roll, pitch, yaw)`, embedded from the tf (bullet
LinearMath) source: the Euler-angle product `Rz(yaw) * Ry(pitch) * Rx(roll)`. -/
def setRPY (T : TfOps K) (roll pitch yaw : K) : Mat3 K :=
  let ci := T.cos roll
  let cj := T.cos pitch
  let ch := T.cos yaw
  let si := T.sin roll
  let sj := T.sin pitch
  let sh := T.sin yaw
  let cc := ci * ch
  let cs := ci * sh
  let sc := si * ch
  let ss := si * sh
  ⟨cj * ch, sj * sc - cs, sj * cc + ss,
   cj * sh, sj * ss + cc, sj * cs - sc,
   -sj, cj * si, cj * ci⟩

/-- `vec_to_rot` from `eskf.cpp` lines 3-8: builds a rotation matrix from a
rotation vector by calling `setRPY` on its three components. -/
def vec_to_rot (T : TfOps K) (w : Vec3 K) : Mat3 K := setRPY T w.x w.y w.z

/-- `skew` from `eskf.cpp` lines 10-16: the skew-symmetric (cross-product)
matrix of a 3-vector. -/
def skew (w : Vec3 K) : Mat3 K :=
  ⟨0, -w.z, w.y,
   w.z, 0, -w.x,
   -w.y, w.x, 0⟩

/-- `tf::Matrix3x3::setRotation`, embedded from the tf source: rotation
matrix from a (not necessarily normalized) quaternion. -/
def setRotationQ (q : Quat K) : Mat3 K :=
  let d := q.x * q.x + q.y * q.y + q.z * q.z + q.w * q.w
  let s := 2 / d
  let xs := q.x * s
  let ys := q.y * s
  let zs := q.z * s
  let wx := q.w * xs
  let wy := q.w * ys
  let wz := q.w * zs
  let xx := q.x * xs
  let xy := q.x * ys
  let xz := q.x * zs
  let yy := q.y * ys
  let yz := q.y * zs
  let zz := q.z * zs
  ⟨1 - (yy + zz), xy - wz, xz + wy,
   xy + wz, 1 - (xx + zz), yz - wx,
   xz - wy, yz + wx, 1 - (xx + yy)⟩

/-- The configuration parameters read in the `ESKF` constructor
(`eskf.cpp` lines 20-29). -/
structure Params (K : Type) where
  imu_freq : K
  sigma_acc : K
  sigma_gyr : K
  sigma_bias_acc : K
  sigma_bias_gyr : K
  g : K
  init_bias_acc_x : K
  init_bias_acc_y : K
  init_bias_acc_z : K
  acc_queue_size : ℕ
deriving DecidableEq

/-- The default parameter values of the constructor (`eskf.cpp` lines 20-29):
50 Hz, noise sigmas 0.1 / 0.01 / 0.0001 / 0.00001, gravity 9.82, zero initial
accelerometer bias, smoothing-queue capacity 5. -/
def defaultParams : Params K :=
  ⟨50, 1 / 10, 1 / 100, 1 / 10000, 1 / 100000, 491 / 50, 0, 0, 0, 5⟩

/-- An inbound inertial sample (`sensor_msgs::Imu`): timestamp, linear
acceleration, angular velocity, orientation quaternion. -/
structure ImuMsg (K : Type) where
  stamp : K
  linear_acceleration : Vec3 K
  angular_velocity : Vec3 K
  orientation : Quat K
deriving DecidableEq

/-- An odometry message (`nav_msgs::Odometry`): pose (position + orientation
quaternion) with 6x6 covariance, twist (linear + angular velocity) with 6x6
covariance. Used both as the pose-observation input of
`measurement_callback` and as the output of `publish_odom`. -/
structure OdomMsg (K : Type) where
  stamp : K
  position : Vec3 K
  orientation : Quat K
  twist_linear : Vec3 K
  twist_angular : Vec3 K
  pose_cov : Mat6 K
  twist_cov : Mat6 K
deriving DecidableEq

/-- The member state of the `ESKF` class, one field per C++ member used by
`eskf.cpp`. -/
structure ESKFState (K : Type) where
  params : Params K
  velocity : Vec3 K
  rotation : Mat3 K
  quaternion : Quat K
  position : Vec3 K
  bias_acc : Vec3 K
  bias_gyr : Vec3 K
  d_velocity : Vec3 K
  d_theta : Vec3 K
  d_rotation : Mat3 K
  d_position : Vec3 K
  d_bias_acc : Vec3 K
  d_bias_gyr : Vec3 K
  imu_acceleration : Vec3 K
  imu_angular_velocity : Vec3 K
  imu_orientation : Quat K
  m_velocity : Vec3 K
  m_rotation : Mat3 K
  m_quaternion : Quat K
  m_position : Vec3 K
  m_theta : Vec3 K
  m_pose_sigma : Mat6 K
  m_twist_sigma : Mat6 K
  got_measurements : Bool
  Fx : Mat15 K
  Fn : Mat15x12 K
  Q : Mat12 K
  Sigma : Mat15 K
  gravity : Vec3 K
  init_time : Bool
  dt : K
  imu_time : K
  acc_queue : List (Vec3 K)
  acc_queue_count : ℕ
deriving DecidableEq

/-- The `ESKF` constructor (`eskf.cpp` lines 18-81) for given parameters.
`tf::Quaternion::setRPY(0,0,0)` yields the identity quaternion, written out
directly. The C++ leaves `_dt`, `_imu_time`, `_m_pose_sigma` and
`_m_twist_sigma` uninitialized; they are zero-initialized here — none of them
is read before being written on every reachable path (`_dt` and `_imu_time`
are set by `update_time`, the measurement covariances by
`measurement_callback` before the `_got_measurements` guard opens). -/
def initESKF (p : Params K) : ESKFState K where
  params := p
  velocity := 0
  rotation := 1
  quaternion := ⟨0, 0, 0, 1⟩
  position := 0
  bias_acc := ⟨p.init_bias_acc_x, p.init_bias_acc_y, p.init_bias_acc_z⟩
  bias_gyr := 0
  d_velocity := 0
  d_theta := 0
  d_rotation := 1
  d_position := 0
  d_bias_acc := 0
  d_bias_gyr := 0
  imu_acceleration := 0
  imu_angular_velocity := 0
  imu_orientation := ⟨0, 0, 0, 1⟩
  m_velocity := 0
  m_rotation := 1
  m_quaternion := ⟨0, 0, 0, 1⟩
  m_position := 0
  m_theta := 0
  m_pose_sigma := 0
  m_twist_sigma := 0
  got_measurements := false
  Fx := 0
  Fn := 0
  Q := 0
  Sigma := 0
  gravity := ⟨0, 0, p.g⟩
  init_time := true
  dt := 0
  imu_time := 0
  acc_queue := []
  acc_queue_count := 0

/-- `ESKF::update_time` (`eskf.cpp` lines 104-114). -/
def update_time (m : ImuMsg K) (s : ESKFState K) : ESKFState K :=
  if s.init_time then
    { s with dt := 1 / s.params.imu_freq, init_time := false, imu_time := m.stamp }
  else
    { s with dt := m.stamp - s.imu_time, imu_time := m.stamp }

/-- `ESKF::update_imu` (`eskf.cpp` lines 116-146): while the queue is
filling, the raw sample is appended and also handed on directly; once full,
the sample overwrites ring slot `count % size` and the average of the queue
(each entry divided by the capacity) is handed on. -/
def update_imu (m : ImuMsg K) (s : ESKFState K) : ESKFState K :=
  let N := s.params.acc_queue_size
  if s.acc_queue_count < N then
    { s with acc_queue := s.acc_queue ++ [m.linear_acceleration],
             imu_acceleration := m.linear_acceleration,
             acc_queue_count := s.acc_queue_count + 1,
             imu_angular_velocity := m.angular_velocity,
             imu_orientation := m.orientation }
  else
    let q2 := s.acc_queue.set (s.acc_queue_count % N) m.linear_acceleration
    let avg : Vec3 K :=
      ⟨((List.range N).map fun i => (q2.getD i 0).x / (N : K)).sum,
       ((List.range N).map fun i => (q2.getD i 0).y / (N : K)).sum,
       ((List.range N).map fun i => (q2.getD i 0).z / (N : K)).sum⟩
    { s with acc_queue := q2,
             imu_acceleration := avg,
             acc_queue_count := s.acc_queue_count + 1,
             imu_angular_velocity := m.angular_velocity,
             imu_orientation := m.orientation }

/-- `ESKF::propagate_state` (`eskf.cpp` lines 148-170): strapdown update of
the nominal state; all right-hand sides read the pre-update state, and the
redundant quaternion is re-derived from the new rotation matrix. -/
def propagate_state (T : TfOps K) (s : ESKFState K) : ESKFState K :=
  let accWorld : Vec3 K := s.rotation.mulVec (s.imu_acceleration - s.bias_acc) + s.gravity
  let velocity := s.velocity + accWorld.smul s.dt
  let rotation := s.rotation * vec_to_rot T ((s.imu_angular_velocity - s.bias_gyr).smul s.dt)
  let position := s.position + s.velocity.smul s.dt + ((accWorld.smul (1 / 2)).smul s.dt).smul s.dt
  { s with velocity := velocity,
           rotation := rotation,
           position := position,
           bias_acc := s.bias_acc,
           bias_gyr := s.bias_gyr,
           quaternion := T.matToQuat rotation }

/-- `ESKF::propagate_error` (`eskf.cpp` lines 172-176) is empty: the
error-state mean transition is a no-op. -/
def propagate_error (s : ESKFState K) : ESKFState K := s

/-- The state-transition Jacobian `_Fx` built by `ESKF::propagate_covariance`
(`eskf.cpp` lines 188-192) at the current linearization point. -/
def fxJac (T : TfOps K) (s : ESKFState K) : Mat15 K :=
  let R := s.rotation
  let R1 := skew (s.imu_acceleration - s.bias_acc)
  let R2 := vec_to_rot T ((s.imu_angular_velocity - s.bias_gyr).smul s.dt)
  ⟨1, Mat3.smul s.dt (-R * R1), 0, Mat3.smul s.dt (-R), 0,
   0, R2.transpose, 0, 0, Mat3.smul s.dt (-1),
   Mat3.smul s.dt 1, 0, 1, 0, 0,
   0, 0, 0, 1, 0,
   0, 0, 0, 0, 1⟩

/-- The noise-injection Jacobian `_Fn` built by `ESKF::propagate_covariance`
(`eskf.cpp` lines 194-198). -/
def fnJac (s : ESKFState K) : Mat15x12 K :=
  ⟨s.rotation, 0, 0, 0,
   0, 1, 0, 0,
   0, 0, 0, 0,
   0, 0, 1, 0,
   0, 0, 0, 1⟩

/-- The process-noise matrix `_Q` built by `ESKF::propagate_covariance`
(`eskf.cpp` lines 200-203). -/
def qNoise (s : ESKFState K) : Mat12 K :=
  ⟨Mat3.smul ((s.params.sigma_acc * s.dt) ^ 2) 1, 0, 0, 0,
   0, Mat3.smul ((s.params.sigma_gyr * s.dt) ^ 2) 1, 0, 0,
   0, 0, Mat3.smul ((s.params.sigma_bias_acc * s.dt) ^ 2) 1, 0,
   0, 0, 0, Mat3.smul ((s.params.sigma_bias_gyr * s.dt) ^ 2) 1⟩

/-- `ESKF::propagate_covariance` (`eskf.cpp` lines 178-207): builds the
Jacobians `Fx` (15x15), `Fn` (15x12) and the process noise `Q` (12x12) at the
current linearization point and updates
`Sigma := Fx * Sigma * Fxᵀ + Fn * Q * Fnᵀ`. -/
def propagate_covariance (T : TfOps K) (s : ESKFState K) : ESKFState K :=
  { s with Fx := fxJac T s, Fn := fnJac s, Q := qNoise s,
           Sigma := mul15 (mul15 (fxJac T s) s.Sigma) (transpose15 (fxJac T s)) +
             mulABt1512 (mul1512x12 (fnJac s) (qNoise s)) (fnJac s) }

/-- `ESKF::publish_odom` (`eskf.cpp` lines 209-253): the odometry message
built from the current state (a pure output; the state is unchanged). -/
def publish_odom (s : ESKFState K) : OdomMsg K :=
  let R := s.rotation
  let pose_sigma : Mat6 K :=
    ⟨s.Sigma.b22, s.Sigma.b12 * R.transpose,
     R * s.Sigma.b21, R * s.Sigma.b11 * R.transpose⟩
  let twist_sigma : Mat6 K :=
    ⟨s.Sigma.b00, (0 : Mat3 K) * R.transpose,
     R * (0 : Mat3 K), Mat3.smul s.params.sigma_gyr R * (1 : Mat3 K) * R.transpose⟩
  { stamp := s.imu_time,
    position := s.position,
    orientation := s.quaternion,
    twist_linear := s.velocity,
    twist_angular := s.imu_angular_velocity,
    pose_cov := pose_sigma,
    twist_cov := twist_sigma }

/-- `ESKF::measurement_callback` (`eskf.cpp` lines 272-297): decode the pose
observation (quaternion to rotation matrix to roll/pitch/yaw), store its
position, covariances and twist, and raise the pending flag. -/
def measurement_callback (T : TfOps K) (m : OdomMsg K) (s : ESKFState K) : ESKFState K :=
  let mRot := setRotationQ m.orientation
  { s with m_velocity := m.twist_linear,
           m_quaternion := m.orientation,
           m_rotation := mRot,
           m_theta := T.rpyOfMat mRot,
           m_position := m.position,
           m_pose_sigma := m.pose_cov,
           m_twist_sigma := m.twist_cov,
           got_measurements := true }

/-- The observation matrix `H` of `ESKF::update_error` (`eskf.cpp` lines
301-305): identity into the attitude-error and position-error components. -/
def obsH : Mat6x15 K :=
  ⟨0, 1, 0, 0, 0,
   0, 0, 1, 0, 0⟩

/-- The innovation covariance `H * Sigma * Hᵀ + R_meas` of
`ESKF::update_error` (`eskf.cpp` line 322). -/
def innovCov (s : ESKFState K) : Mat6 K :=
  mulABt615 (mul615x15 obsH s.Sigma) obsH + s.m_pose_sigma

/-- The Kalman gain `K = Sigma * Hᵀ * (H * Sigma * Hᵀ + R_meas)⁻¹` of
`ESKF::update_error` (`eskf.cpp` lines 321-322). -/
def kGain (s : ESKFState K) : Mat15x6 K :=
  mul156x6 (mulABt15x615 s.Sigma obsH) (inv6 (innovCov s))

/-- The measurement vector `y = [theta; position]` of `ESKF::update_error`
(`eskf.cpp` lines 308-310). -/
def obsY (s : ESKFState K) : Vec6 K := ⟨s.m_theta, s.m_position⟩

/-- The prior error-state mean `x` of `ESKF::update_error` (`eskf.cpp`
lines 313-318). -/
def errX (s : ESKFState K) : Vec15 K :=
  ⟨s.d_velocity, s.d_theta, s.d_position, s.d_bias_acc, s.d_bias_gyr⟩

/-- The posterior error-state mean `x = K * (y - H * x)` of
`ESKF::update_error` (`eskf.cpp` line 325). -/
def errPost (s : ESKFState K) : Vec15 K :=
  mulVec156 (kGain s) (obsY s - mulVec615 obsH (errX s))

/-- The Joseph factor `M = I - K * H` of `ESKF::update_error` (`eskf.cpp`
lines 336-337). -/
def josephM (s : ESKFState K) : Mat15 K := (1 : Mat15 K) - mul156x615 (kGain s) obsH

/-- `ESKF::update_error` (`eskf.cpp` lines 299-340): Kalman update of the
error state from the stored pose observation, with the Joseph-form
covariance update `Sigma := M * Sigma * Mᵀ + K * R_meas * Kᵀ`. -/
def update_error (T : TfOps K) (s : ESKFState K) : ESKFState K :=
  { s with d_velocity := (errPost s).v0,
           d_theta := (errPost s).v1,
           d_position := (errPost s).v2,
           d_bias_acc := (errPost s).v3,
           d_bias_gyr := (errPost s).v4,
           d_rotation := setRPY T (errPost s).v1.x (errPost s).v1.y (errPost s).v1.z,
           Sigma := mulABt15 (mul15 (josephM s) s.Sigma) (josephM s) +
             mulABt156 (mul156x6 (kGain s) s.m_pose_sigma) (kGain s) }

/-- `ESKF::update_state` (`eskf.cpp` lines 342-350): inject the error-state
mean into the nominal state (rotation composed on the right) and re-derive
the quaternion. -/
def update_state (T : TfOps K) (s : ESKFState K) : ESKFState K :=
  let rotation := s.rotation * s.d_rotation
  { s with velocity := s.velocity + s.d_velocity,
           rotation := rotation,
           position := s.position + s.d_position,
           bias_acc := s.bias_acc + s.d_bias_acc,
           bias_gyr := s.bias_gyr + s.d_bias_gyr,
           quaternion := T.matToQuat rotation }

/-- `ESKF::reset_error` (`eskf.cpp` lines 352-359): zero the error-state
mean and reset the auxiliary error rotation to the identity. -/
def reset_error (s : ESKFState K) : ESKFState K :=
  { s with d_velocity := 0,
           d_theta := 0,
           d_rotation := 1,
           d_position := 0,
           d_bias_acc := 0,
           d_bias_gyr := 0 }

/-- `ESKF::imu_callback` (`eskf.cpp` lines 83-102): time and smoothing-buffer
update, propagation, and — only when an observation is pending — the full
correction (error update, injection, reset) with the pending flag cleared. -/
def imu_callback (T : TfOps K) (m : ImuMsg K) (s : ESKFState K) : ESKFState K :=
  let s4 := propagate_covariance T (propagate_state T (propagate_error (update_imu m (update_time m s))))
  if s4.got_measurements then
    { reset_error (update_state T (update_error T s4)) with got_measurements := false }
  else
    s4

/-- An input event of the filter: an inertial sample or a pose observation. -/
inductive Ev (K : Type) where
  | inertial (m : ImuMsg K)
  | pose (m : OdomMsg K)

/-- One event dispatch: the ROS executor hands each arriving message to its
callback, run to completion. -/
def stepEv (T : TfOps K) (s : ESKFState K) : Ev K → ESKFState K
  | Ev.inertial m => imu_callback T m s
  | Ev.pose m => measurement_callback T m s

/-- Run a sequence of events from a state. -/
def runEvents (T : TfOps K) (s : ESKFState K) : List (Ev K) → ESKFState K
  | [] => s
  | e :: es => runEvents T (stepEv T s e) es

/-- The exact real tf operations: true sine and cosine feed `setRPY`.
`matToQuat` and `rpyOfMat` stand for `getRotation` / `getRPY`; no statement
below depends on their values, so they are given fixed placeholder results. -/
noncomputable def realTf : TfOps ℝ :=
  ⟨Real.sin, Real.cos, fun _ => ⟨0, 0, 0, 1⟩, fun _ => 0⟩

/-- Modelled from the spec: `Exp`, the exact rotation-vector exponential map
(Rodrigues formula) that the spec claims the propagation uses, written from
the words of the spec (C3: "the exact exponential map of the rotation
vector", "not a linear approximation and not an Euler-angle construction"). -/
noncomputable def expRotSpec (v : Vec3 ℝ) : Mat3 ℝ :=
  let t := Real.sqrt (v.x * v.x + v.y * v.y + v.z * v.z)
  1 + Mat3.smul (Real.sin t / t) (skew v)
    + Mat3.smul ((1 - Real.cos t) / (t * t)) (skew v * skew v)

/-- A concrete real-valued filter state: the freshly constructed filter about
to propagate over `dt = 1/50` with angular velocity `(150, 200, 0)`, so that
the incremental rotation vector is `(3, 4, 0)`. -/
noncomputable def sC3 : ESKFState ℝ :=
  { initESKF defaultParams with imu_angular_velocity := ⟨150, 200, 0⟩, dt := 1 / 50 }

/-- The state-transition Jacobian exactly as claim C5 words it, except that
the incremental attitude rotation is the one the code computes
(`vec_to_rot`, an Euler-angle construction): identity diagonal carry-through
blocks, attitude block the transpose of the incremental rotation,
velocity-to-attitude block `-R*skew(a - b_a)*dt`, velocity-to-accel-bias
block `-R*dt`, attitude-to-gyro-bias block `-I*dt`, position-to-velocity
block `I*dt`, all other off-diagonal blocks zero. -/
def FxSpecRPY (T : TfOps K) (s : ESKFState K) : Mat15 K :=
  ⟨1, Mat3.smul s.dt (-(s.rotation * skew (s.imu_acceleration - s.bias_acc))), 0,
      Mat3.smul s.dt (-s.rotation), 0,
   0, (vec_to_rot T ((s.imu_angular_velocity - s.bias_gyr).smul s.dt)).transpose, 0, 0,
      Mat3.smul s.dt (-1),
   Mat3.smul s.dt 1, 0, 1, 0, 0,
   0, 0, 0, 1, 0,
   0, 0, 0, 0, 1⟩

/-- The state-transition Jacobian with the attitude block taken from the
exact exponential map, following the spec's words for `Exp` (used to refute
claim C5 as stated). -/
noncomputable def FxSpecExp (s : ESKFState ℝ) : Mat15 ℝ :=
  ⟨1, Mat3.smul s.dt (-(s.rotation * skew (s.imu_acceleration - s.bias_acc))), 0,
      Mat3.smul s.dt (-s.rotation), 0,
   0, (expRotSpec ((s.imu_angular_velocity - s.bias_gyr).smul s.dt)).transpose, 0, 0,
      Mat3.smul s.dt (-1),
   Mat3.smul s.dt 1, 0, 1, 0, 0,
   0, 0, 0, 1, 0,
   0, 0, 0, 0, 1⟩

/-- The noise-injection Jacobian as claim C5 words it:
`[R,0,0,0; 0,I,0,0; 0,0,0,0; 0,0,I,0; 0,0,0,I]`. -/
def FnSpec (s : ESKFState K) : Mat15x12 K :=
  ⟨s.rotation, 0, 0, 0,
   0, 1, 0, 0,
   0, 0, 0, 0,
   0, 0, 1, 0,
   0, 0, 0, 1⟩

/-- The process-noise matrix as claim C5 words it: block-diagonal with
blocks `sigma^2 * dt^2 * I` for the four noise sources. -/
def QSpec (s : ESKFState K) : Mat12 K :=
  ⟨Mat3.smul (s.params.sigma_acc ^ 2 * s.dt ^ 2) 1, 0, 0, 0,
   0, Mat3.smul (s.params.sigma_gyr ^ 2 * s.dt ^ 2) 1, 0, 0,
   0, 0, Mat3.smul (s.params.sigma_bias_acc ^ 2 * s.dt ^ 2) 1, 0,
   0, 0, 0, Mat3.smul (s.params.sigma_bias_gyr ^ 2 * s.dt ^ 2) 1⟩

/-- The published 6x6 pose covariance exactly as claim C9 words it:
`[attitude; position]` block order with the attitude block taken from
`Sigma` directly and the position-related blocks rotated into the world
frame by the nominal rotation. -/
def poseCovSpec (s : ESKFState K) : Mat6 K :=
  ⟨s.Sigma.b11, s.Sigma.b12 * s.rotation.transpose,
   s.rotation * s.Sigma.b21, s.rotation * s.Sigma.b22 * s.rotation.transpose⟩

/-- A concrete rational filter state whose covariance has distinct attitude
and position blocks (identity and twice the identity). -/
def sC9 : ESKFState ℚ :=
  { initESKF defaultParams with
      Sigma := { (0 : Mat15 ℚ) with b11 := 1, b22 := Mat3.smul 2 1 } }

attribute [ext] Vec3 Mat3 Quat Mat15 Mat15x12 Mat12 Mat6 Mat6x15 Mat15x6 Vec15 Vec6

/-- The observation matrix exactly as claim C6 words it: the 6x15 matrix
with the identity in the attitude-error columns (rows 1-3) and the identity
in the position-error columns (rows 4-6), zero elsewhere — in the fixed
block order (velocity, attitude, position, accel-bias, gyro-bias) these are
block column 1 for block row 0 and block column 2 for block row 1. -/
def HObsSpec : Mat6x15 K :=
  ⟨0, 1, 0, 0, 0,
   0, 0, 1, 0, 0⟩

/-- The Kalman gain exactly as claim C6 words it:
`K = Sigma * Hᵀ * (H*Sigma*Hᵀ + R_meas)⁻¹`. -/
def kGainSpec (s : ESKFState K) : Mat15x6 K :=
  mul156x6 (mulABt15x615 s.Sigma HObsSpec)
    (inv6 (mulABt615 (mul615x15 HObsSpec s.Sigma) HObsSpec + s.m_pose_sigma))

/-- A concrete tf-operation bundle over the rationals, agreeing with real
trigonometry at angle zero (`sin 0 = 0`, `cos 0 = 1`). -/
def ratTf : TfOps ℚ :=
  ⟨fun _ => 0, fun _ => 1, fun _ => ⟨0, 0, 0, 1⟩, fun _ => 0⟩

/-- A concrete rational filter state with pending observation, identity
prior covariance and identity observation covariance (so the innovation
covariance is twice the identity, determinant 64). -/
def sC6 : ESKFState ℚ :=
  { initESKF defaultParams with
      Sigma := 1, m_pose_sigma := 1, got_measurements := true,
      m_theta := ⟨1, 0, 0⟩, m_position := ⟨2, 0, 0⟩ }

/-- The error-state mean is exactly zero (and the auxiliary error rotation
is the identity). -/
def errMeanZero (s : ESKFState K) : Prop :=
  s.d_velocity = 0 ∧ s.d_theta = 0 ∧ s.d_position = 0 ∧ s.d_bias_acc = 0
    ∧ s.d_bias_gyr = 0 ∧ s.d_rotation = 1

/-- Number of pose-observation events in an event list. -/
def countPoses : List (Ev K) → ℕ
  | [] => 0
  | Ev.inertial _ :: es => countPoses es
  | Ev.pose _ :: es => 1 + countPoses es

/-- Number of inertial-sample events whose handling runs the correction
branch (an observation was pending when the sample arrived); the
propagation stages do not touch the pending flag, so the branch taken by
`imu_callback` is decided by the flag at event entry. -/
def countCorrections (T : TfOps K) : ESKFState K → List (Ev K) → ℕ
  | _, [] => 0
  | s, Ev.inertial m :: es =>
      (if s.got_measurements then 1 else 0) + countCorrections T (imu_callback T m s) es
  | s, Ev.pose m :: es => countCorrections T (measurement_callback T m s) es

/-- A concrete inertial message used by witness instantiations. -/
def msgW : ImuMsg ℚ := ⟨1 / 50, ⟨0, 0, 0⟩, ⟨0, 0, 0⟩, ⟨0, 0, 0, 1⟩⟩

/-- A concrete pose-observation message used by witness instantiations. -/
def odomW : OdomMsg ℚ := ⟨1 / 50, ⟨1, 0, 0⟩, ⟨0, 0, 0, 1⟩, ⟨0, 0, 0⟩, ⟨0, 0, 0⟩, 1, 0⟩

/-- A pose observation agreeing with `odomW` on all pose fields but with
different twist (velocity) fields and twist covariance. -/
def odomW2 : OdomMsg ℚ := { odomW with twist_linear := ⟨5, 6, 7⟩, twist_cov := 1 }

/-- Process a list of inertial messages through the smoothing buffer
(`update_imu`) in arrival order. -/
def pushAll (msgs : List (ImuMsg K)) (s : ESKFState K) : ESKFState K :=
  msgs.foldl (fun st m => update_imu m st) s

/-- First sample fed to the smoothing buffer in the C4 counterexample. -/
def msgA : ImuMsg ℚ := ⟨1 / 50, ⟨2, 0, 0⟩, ⟨0, 0, 0⟩, ⟨0, 0, 0, 1⟩⟩

/-- Second sample fed to the smoothing buffer in the C4 counterexample. -/
def msgB : ImuMsg ℚ := ⟨2 / 50, ⟨4, 0, 0⟩, ⟨0, 0, 0⟩, ⟨0, 0, 0, 1⟩⟩

/-- A parameter set with smoothing-queue capacity 2, to exercise the
full-queue averaging branch on short message lists. -/
def paramsQ2 : Params ℚ := ⟨50, 1 / 10, 1 / 100, 1 / 10000, 1 / 100000, 491 / 50, 0, 0, 0, 2⟩

/-- Arithmetic mean of a list of 3-vectors, componentwise (dividing by `N`). -/
def vecAvg (N : ℕ) (l : List (Vec3 K)) : Vec3 K :=
  ⟨(l.map Vec3.x).sum / (N : K), (l.map Vec3.y).sum / (N : K), (l.map Vec3.z).sum / (N : K)⟩
/-- The `n`-th inertial message of the C1 constant-input scenario: stamp
`(n+1)/50` (a 50 Hz stream), linear acceleration `(0,0,az)`, zero angular
velocity, identity orientation. -/
def cMsg (az : K) (n : ℕ) : ImuMsg K := ⟨((n : K) + 1) / 50, ⟨0, 0, az⟩, 0, ⟨0, 0, 0, 1⟩⟩

/-- The filter state after the first `n` inertial messages of the C1
constant-input scenario, starting from the default-parameter construction
(no pose observation ever arrives). -/
def runConst (T : TfOps K) (az : K) : ℕ → ESKFState K
  | 0 => initESKF defaultParams
  | n + 1 => imu_callback T (cMsg az n) (runConst T az n)

/-- The constant state-transition Jacobian of the C1 scenario: `fxJac` at
rotation `1`, smoothed acceleration `(0,0,az)`, zero biases, zero angular
velocity and `dt = 1/50`. -/
def fxC1 (az : K) : Mat15 K :=
  ⟨⟨1, 0, 0, 0, 1, 0, 0, 0, 1⟩, ⟨0, az / 50, 0, -(az / 50), 0, 0, 0, 0, 0⟩,
     ⟨0, 0, 0, 0, 0, 0, 0, 0, 0⟩, ⟨-(1 / 50), 0, 0, 0, -(1 / 50), 0, 0, 0, -(1 / 50)⟩,
     ⟨0, 0, 0, 0, 0, 0, 0, 0, 0⟩,
   ⟨0, 0, 0, 0, 0, 0, 0, 0, 0⟩, ⟨1, 0, 0, 0, 1, 0, 0, 0, 1⟩,
     ⟨0, 0, 0, 0, 0, 0, 0, 0, 0⟩, ⟨0, 0, 0, 0, 0, 0, 0, 0, 0⟩,
     ⟨-(1 / 50), 0, 0, 0, -(1 / 50), 0, 0, 0, -(1 / 50)⟩,
   ⟨1 / 50, 0, 0, 0, 1 / 50, 0, 0, 0, 1 / 50⟩, ⟨0, 0, 0, 0, 0, 0, 0, 0, 0⟩,
     ⟨1, 0, 0, 0, 1, 0, 0, 0, 1⟩, ⟨0, 0, 0, 0, 0, 0, 0, 0, 0⟩, ⟨0, 0, 0, 0, 0, 0, 0, 0, 0⟩,
   ⟨0, 0, 0, 0, 0, 0, 0, 0, 0⟩, ⟨0, 0, 0, 0, 0, 0, 0, 0, 0⟩, ⟨0, 0, 0, 0, 0, 0, 0, 0, 0⟩,
     ⟨1, 0, 0, 0, 1, 0, 0, 0, 1⟩, ⟨0, 0, 0, 0, 0, 0, 0, 0, 0⟩,
   ⟨0, 0, 0, 0, 0, 0, 0, 0, 0⟩, ⟨0, 0, 0, 0, 0, 0, 0, 0, 0⟩, ⟨0, 0, 0, 0, 0, 0, 0, 0, 0⟩,
     ⟨0, 0, 0, 0, 0, 0, 0, 0, 0⟩, ⟨1, 0, 0, 0, 1, 0, 0, 0, 1⟩⟩

/-- The constant noise-injection Jacobian of the C1 scenario: `fnJac` at
rotation `1`. -/
def fnC1 : Mat15x12 K :=
  ⟨⟨1, 0, 0, 0, 1, 0, 0, 0, 1⟩, ⟨0, 0, 0, 0, 0, 0, 0, 0, 0⟩,
     ⟨0, 0, 0, 0, 0, 0, 0, 0, 0⟩, ⟨0, 0, 0, 0, 0, 0, 0, 0, 0⟩,
   ⟨0, 0, 0, 0, 0, 0, 0, 0, 0⟩, ⟨1, 0, 0, 0, 1, 0, 0, 0, 1⟩,
     ⟨0, 0, 0, 0, 0, 0, 0, 0, 0⟩, ⟨0, 0, 0, 0, 0, 0, 0, 0, 0⟩,
   ⟨0, 0, 0, 0, 0, 0, 0, 0, 0⟩, ⟨0, 0, 0, 0, 0, 0, 0, 0, 0⟩,
     ⟨0, 0, 0, 0, 0, 0, 0, 0, 0⟩, ⟨0, 0, 0, 0, 0, 0, 0, 0, 0⟩,
   ⟨0, 0, 0, 0, 0, 0, 0, 0, 0⟩, ⟨0, 0, 0, 0, 0, 0, 0, 0, 0⟩,
     ⟨1, 0, 0, 0, 1, 0, 0, 0, 1⟩, ⟨0, 0, 0, 0, 0, 0, 0, 0, 0⟩,
   ⟨0, 0, 0, 0, 0, 0, 0, 0, 0⟩, ⟨0, 0, 0, 0, 0, 0, 0, 0, 0⟩,
     ⟨0, 0, 0, 0, 0, 0, 0, 0, 0⟩, ⟨1, 0, 0, 0, 1, 0, 0, 0, 1⟩⟩

/-- The constant process-noise matrix of the C1 scenario: `qNoise` with the
default noise parameters and `dt = 1/50`. -/
def qC1 : Mat12 K :=
  ⟨⟨1 / 250000, 0, 0, 0, 1 / 250000, 0, 0, 0, 1 / 250000⟩, ⟨0, 0, 0, 0, 0, 0, 0, 0, 0⟩,
     ⟨0, 0, 0, 0, 0, 0, 0, 0, 0⟩, ⟨0, 0, 0, 0, 0, 0, 0, 0, 0⟩,
   ⟨0, 0, 0, 0, 0, 0, 0, 0, 0⟩, ⟨1 / 25000000, 0, 0, 0, 1 / 25000000, 0, 0, 0, 1 / 25000000⟩,
     ⟨0, 0, 0, 0, 0, 0, 0, 0, 0⟩, ⟨0, 0, 0, 0, 0, 0, 0, 0, 0⟩,
   ⟨0, 0, 0, 0, 0, 0, 0, 0, 0⟩, ⟨0, 0, 0, 0, 0, 0, 0, 0, 0⟩,
     ⟨1 / 250000000000, 0, 0, 0, 1 / 250000000000, 0, 0, 0, 1 / 250000000000⟩,
     ⟨0, 0, 0, 0, 0, 0, 0, 0, 0⟩,
   ⟨0, 0, 0, 0, 0, 0, 0, 0, 0⟩, ⟨0, 0, 0, 0, 0, 0, 0, 0, 0⟩,
     ⟨0, 0, 0, 0, 0, 0, 0, 0, 0⟩,
     ⟨1 / 25000000000000, 0, 0, 0, 1 / 25000000000000, 0, 0, 0, 1 / 25000000000000⟩⟩

/-- Trace of a 3x3 covariance block. -/
def trB (M : Mat3 K) : K := M.m00 + M.m11 + M.m22

/-- Per-block closed forms of the C1 covariance (block row-column index in
the name), as polynomials in the cast step count `x` and the accelerometer
`z` input `az`.  Generated from the recurrence of `propagate_covariance`
at the constant linearization point and certified by `sigmaC1_succ`. -/
def sigb00 (az x : K) : Mat3 K :=
  ⟨15000000001/3750000000000000 * x + 4166666667/1562500000000000000000 * x * az ^ 2 - 1/1250000000000000 * x ^ 2 - 5000000001/625000000000000000000 * x ^ 2 * az ^ 2 + 1/1875000000000000 * x ^ 3 + 666666667/125000000000000000000 * x ^ 3 * az ^ 2 - 1/625000000000000000000 * x ^ 4 * az ^ 2 + 1/3125000000000000000000 * x ^ 5 * az ^ 2,
   0,
   0,
   0,
   15000000001/3750000000000000 * x + 4166666667/1562500000000000000000 * x * az ^ 2 - 1/1250000000000000 * x ^ 2 - 5000000001/625000000000000000000 * x ^ 2 * az ^ 2 + 1/1875000000000000 * x ^ 3 + 666666667/125000000000000000000 * x ^ 3 * az ^ 2 - 1/625000000000000000000 * x ^ 4 * az ^ 2 + 1/3125000000000000000000 * x ^ 5 * az ^ 2,
   0,
   0,
   0,
   15000000001/3750000000000000 * x - 1/1250000000000000 * x ^ 2 + 1/1875000000000000 * x ^ 3⟩

/-- Block (0,1) of the C1 covariance closed form. -/
def sigb01 (az x : K) : Mat3 K :=
  ⟨0,
   -15000000001/37500000000000000000 * x * az + 10000000003/25000000000000000000 * x ^ 2 * az - 1/7500000000000000000 * x ^ 3 * az + 1/25000000000000000000 * x ^ 4 * az,
   0,
   15000000001/37500000000000000000 * x * az - 10000000003/25000000000000000000 * x ^ 2 * az + 1/7500000000000000000 * x ^ 3 * az - 1/25000000000000000000 * x ^ 4 * az,
   0,
   0,
   0,
   0,
   0⟩

/-- Block (0,2) of the C1 covariance closed form. -/
def sigb02 (az x : K) : Mat3 K :=
  ⟨-15000000001/375000000000000000 * x - 4166666667/156250000000000000000000 * x * az ^ 2 + 10000000003/250000000000000000 * x ^ 2 + 67500000013/562500000000000000000000 * x ^ 2 * az ^ 2 - 1/75000000000000000 * x ^ 3 - 25000000009/187500000000000000000000 * x ^ 3 * az ^ 2 + 1/250000000000000000 * x ^ 4 + 11250000011/281250000000000000000000 * x ^ 4 * az ^ 2 - 13/937500000000000000000000 * x ^ 5 * az ^ 2 + 1/562500000000000000000000 * x ^ 6 * az ^ 2,
   0,
   0,
   0,
   -15000000001/375000000000000000 * x - 4166666667/156250000000000000000000 * x * az ^ 2 + 10000000003/250000000000000000 * x ^ 2 + 67500000013/562500000000000000000000 * x ^ 2 * az ^ 2 - 1/75000000000000000 * x ^ 3 - 25000000009/187500000000000000000000 * x ^ 3 * az ^ 2 + 1/250000000000000000 * x ^ 4 + 11250000011/281250000000000000000000 * x ^ 4 * az ^ 2 - 13/937500000000000000000000 * x ^ 5 * az ^ 2 + 1/562500000000000000000000 * x ^ 6 * az ^ 2,
   0,
   0,
   0,
   -15000000001/375000000000000000 * x + 10000000003/250000000000000000 * x ^ 2 - 1/75000000000000000 * x ^ 3 + 1/250000000000000000 * x ^ 4⟩

/-- Block (0,3) of the C1 covariance closed form. -/
def sigb03 (az x : K) : Mat3 K :=
  ⟨1/25000000000000 * x - 1/25000000000000 * x ^ 2,
   0,
   0,
   0,
   1/25000000000000 * x - 1/25000000000000 * x ^ 2,
   0,
   0,
   0,
   1/25000000000000 * x - 1/25000000000000 * x ^ 2⟩

/-- Block (0,4) of the C1 covariance closed form. -/
def sigb04 (az x : K) : Mat3 K :=
  ⟨0,
   -1/187500000000000000 * x * az + 1/125000000000000000 * x ^ 2 * az - 1/375000000000000000 * x ^ 3 * az,
   0,
   1/187500000000000000 * x * az - 1/125000000000000000 * x ^ 2 * az + 1/375000000000000000 * x ^ 3 * az,
   0,
   0,
   0,
   0,
   0⟩

/-- Block (1,0) of the C1 covariance closed form. -/
def sigb10 (az x : K) : Mat3 K :=
  ⟨0,
   15000000001/37500000000000000000 * x * az - 10000000003/25000000000000000000 * x ^ 2 * az + 1/7500000000000000000 * x ^ 3 * az - 1/25000000000000000000 * x ^ 4 * az,
   0,
   -15000000001/37500000000000000000 * x * az + 10000000003/25000000000000000000 * x ^ 2 * az - 1/7500000000000000000 * x ^ 3 * az + 1/25000000000000000000 * x ^ 4 * az,
   0,
   0,
   0,
   0,
   0⟩

/-- Block (1,1) of the C1 covariance closed form. -/
def sigb11 (az x : K) : Mat3 K :=
  ⟨15000000001/375000000000000000 * x - 1/125000000000000000 * x ^ 2 + 1/187500000000000000 * x ^ 3,
   0,
   0,
   0,
   15000000001/375000000000000000 * x - 1/125000000000000000 * x ^ 2 + 1/187500000000000000 * x ^ 3,
   0,
   0,
   0,
   15000000001/375000000000000000 * x - 1/125000000000000000 * x ^ 2 + 1/187500000000000000 * x ^ 3⟩

/-- Block (1,2) of the C1 covariance closed form. -/
def sigb12 (az x : K) : Mat3 K :=
  ⟨0,
   -50000000003/9375000000000000000000 * x * az + 30000000007/3750000000000000000000 * x ^ 2 * az - 1000000001/375000000000000000000 * x ^ 3 * az + 1/750000000000000000000 * x ^ 4 * az - 1/4687500000000000000000 * x ^ 5 * az,
   0,
   50000000003/9375000000000000000000 * x * az - 30000000007/3750000000000000000000 * x ^ 2 * az + 1000000001/375000000000000000000 * x ^ 3 * az - 1/750000000000000000000 * x ^ 4 * az + 1/4687500000000000000000 * x ^ 5 * az,
   0,
   0,
   0,
   0,
   0⟩

/-- Block (1,3) of the C1 covariance closed form. -/
def sigb13 (az x : K) : Mat3 K :=
  ⟨0,
   0,
   0,
   0,
   0,
   0,
   0,
   0,
   0⟩

/-- Block (1,4) of the C1 covariance closed form. -/
def sigb14 (az x : K) : Mat3 K :=
  ⟨1/2500000000000000 * x - 1/2500000000000000 * x ^ 2,
   0,
   0,
   0,
   1/2500000000000000 * x - 1/2500000000000000 * x ^ 2,
   0,
   0,
   0,
   1/2500000000000000 * x - 1/2500000000000000 * x ^ 2⟩

/-- Block (2,0) of the C1 covariance closed form. -/
def sigb20 (az x : K) : Mat3 K :=
  ⟨-15000000001/375000000000000000 * x - 4166666667/156250000000000000000000 * x * az ^ 2 + 10000000003/250000000000000000 * x ^ 2 + 67500000013/562500000000000000000000 * x ^ 2 * az ^ 2 - 1/75000000000000000 * x ^ 3 - 25000000009/187500000000000000000000 * x ^ 3 * az ^ 2 + 1/250000000000000000 * x ^ 4 + 11250000011/281250000000000000000000 * x ^ 4 * az ^ 2 - 13/937500000000000000000000 * x ^ 5 * az ^ 2 + 1/562500000000000000000000 * x ^ 6 * az ^ 2,
   0,
   0,
   0,
   -15000000001/375000000000000000 * x - 4166666667/156250000000000000000000 * x * az ^ 2 + 10000000003/250000000000000000 * x ^ 2 + 67500000013/562500000000000000000000 * x ^ 2 * az ^ 2 - 1/75000000000000000 * x ^ 3 - 25000000009/187500000000000000000000 * x ^ 3 * az ^ 2 + 1/250000000000000000 * x ^ 4 + 11250000011/281250000000000000000000 * x ^ 4 * az ^ 2 - 13/937500000000000000000000 * x ^ 5 * az ^ 2 + 1/562500000000000000000000 * x ^ 6 * az ^ 2,
   0,
   0,
   0,
   -15000000001/375000000000000000 * x + 10000000003/250000000000000000 * x ^ 2 - 1/75000000000000000 * x ^ 3 + 1/250000000000000000 * x ^ 4⟩

/-- Block (2,1) of the C1 covariance closed form. -/
def sigb21 (az x : K) : Mat3 K :=
  ⟨0,
   50000000003/9375000000000000000000 * x * az - 30000000007/3750000000000000000000 * x ^ 2 * az + 1000000001/375000000000000000000 * x ^ 3 * az - 1/750000000000000000000 * x ^ 4 * az + 1/4687500000000000000000 * x ^ 5 * az,
   0,
   -50000000003/9375000000000000000000 * x * az + 30000000007/3750000000000000000000 * x ^ 2 * az - 1000000001/375000000000000000000 * x ^ 3 * az + 1/750000000000000000000 * x ^ 4 * az - 1/4687500000000000000000 * x ^ 5 * az,
   0,
   0,
   0,
   0,
   0⟩

/-- Block (2,2) of the C1 covariance closed form. -/
def sigb22 (az x : K) : Mat3 K :=
  ⟨4166666667/15625000000000000000 * x + 35000000003/164062500000000000000000000 * x * az ^ 2 - 5000000001/6250000000000000000 * x ^ 2 - 5000000001/3125000000000000000000000 * x ^ 2 * az ^ 2 + 666666667/1250000000000000000 * x ^ 3 + 75000000023/28125000000000000000000000 * x ^ 3 * az ^ 2 - 1/6250000000000000000 * x ^ 4 - 1875000001/1171875000000000000000000 * x ^ 4 * az ^ 2 + 1/31250000000000000000 * x ^ 5 + 45000000061/140625000000000000000000000 * x ^ 5 * az ^ 2 - 1/9375000000000000000000000 * x ^ 6 * az ^ 2 + 1/98437500000000000000000000 * x ^ 7 * az ^ 2,
   0,
   0,
   0,
   4166666667/15625000000000000000 * x + 35000000003/164062500000000000000000000 * x * az ^ 2 - 5000000001/6250000000000000000 * x ^ 2 - 5000000001/3125000000000000000000000 * x ^ 2 * az ^ 2 + 666666667/1250000000000000000 * x ^ 3 + 75000000023/28125000000000000000000000 * x ^ 3 * az ^ 2 - 1/6250000000000000000 * x ^ 4 - 1875000001/1171875000000000000000000 * x ^ 4 * az ^ 2 + 1/31250000000000000000 * x ^ 5 + 45000000061/140625000000000000000000000 * x ^ 5 * az ^ 2 - 1/9375000000000000000000000 * x ^ 6 * az ^ 2 + 1/98437500000000000000000000 * x ^ 7 * az ^ 2,
   0,
   0,
   0,
   4166666667/15625000000000000000 * x - 5000000001/6250000000000000000 * x ^ 2 + 666666667/1250000000000000000 * x ^ 3 - 1/6250000000000000000 * x ^ 4 + 1/31250000000000000000 * x ^ 5⟩

/-- Block (2,3) of the C1 covariance closed form. -/
def sigb23 (az x : K) : Mat3 K :=
  ⟨-1/1875000000000000 * x + 1/1250000000000000 * x ^ 2 - 1/3750000000000000 * x ^ 3,
   0,
   0,
   0,
   -1/1875000000000000 * x + 1/1250000000000000 * x ^ 2 - 1/3750000000000000 * x ^ 3,
   0,
   0,
   0,
   -1/1875000000000000 * x + 1/1250000000000000 * x ^ 2 - 1/3750000000000000 * x ^ 3⟩

/-- Block (2,4) of the C1 covariance closed form. -/
def sigb24 (az x : K) : Mat3 K :=
  ⟨0,
   1/12500000000000000000 * x * az - 11/75000000000000000000 * x ^ 2 * az + 1/12500000000000000000 * x ^ 3 * az - 1/75000000000000000000 * x ^ 4 * az,
   0,
   -1/12500000000000000000 * x * az + 11/75000000000000000000 * x ^ 2 * az - 1/12500000000000000000 * x ^ 3 * az + 1/75000000000000000000 * x ^ 4 * az,
   0,
   0,
   0,
   0,
   0⟩

/-- Block (3,0) of the C1 covariance closed form. -/
def sigb30 (az x : K) : Mat3 K :=
  ⟨1/25000000000000 * x - 1/25000000000000 * x ^ 2,
   0,
   0,
   0,
   1/25000000000000 * x - 1/25000000000000 * x ^ 2,
   0,
   0,
   0,
   1/25000000000000 * x - 1/25000000000000 * x ^ 2⟩

/-- Block (3,1) of the C1 covariance closed form. -/
def sigb31 (az x : K) : Mat3 K :=
  ⟨0,
   0,
   0,
   0,
   0,
   0,
   0,
   0,
   0⟩

/-- Block (3,2) of the C1 covariance closed form. -/
def sigb32 (az x : K) : Mat3 K :=
  ⟨-1/1875000000000000 * x + 1/1250000000000000 * x ^ 2 - 1/3750000000000000 * x ^ 3,
   0,
   0,
   0,
   -1/1875000000000000 * x + 1/1250000000000000 * x ^ 2 - 1/3750000000000000 * x ^ 3,
   0,
   0,
   0,
   -1/1875000000000000 * x + 1/1250000000000000 * x ^ 2 - 1/3750000000000000 * x ^ 3⟩

/-- Block (3,3) of the C1 covariance closed form. -/
def sigb33 (az x : K) : Mat3 K :=
  ⟨1/250000000000 * x,
   0,
   0,
   0,
   1/250000000000 * x,
   0,
   0,
   0,
   1/250000000000 * x⟩

/-- Block (3,4) of the C1 covariance closed form. -/
def sigb34 (az x : K) : Mat3 K :=
  ⟨0,
   0,
   0,
   0,
   0,
   0,
   0,
   0,
   0⟩

/-- Block (4,0) of the C1 covariance closed form. -/
def sigb40 (az x : K) : Mat3 K :=
  ⟨0,
   1/187500000000000000 * x * az - 1/125000000000000000 * x ^ 2 * az + 1/375000000000000000 * x ^ 3 * az,
   0,
   -1/187500000000000000 * x * az + 1/125000000000000000 * x ^ 2 * az - 1/375000000000000000 * x ^ 3 * az,
   0,
   0,
   0,
   0,
   0⟩

/-- Block (4,1) of the C1 covariance closed form. -/
def sigb41 (az x : K) : Mat3 K :=
  ⟨1/2500000000000000 * x - 1/2500000000000000 * x ^ 2,
   0,
   0,
   0,
   1/2500000000000000 * x - 1/2500000000000000 * x ^ 2,
   0,
   0,
   0,
   1/2500000000000000 * x - 1/2500000000000000 * x ^ 2⟩

/-- Block (4,2) of the C1 covariance closed form. -/
def sigb42 (az x : K) : Mat3 K :=
  ⟨0,
   -1/12500000000000000000 * x * az + 11/75000000000000000000 * x ^ 2 * az - 1/12500000000000000000 * x ^ 3 * az + 1/75000000000000000000 * x ^ 4 * az,
   0,
   1/12500000000000000000 * x * az - 11/75000000000000000000 * x ^ 2 * az + 1/12500000000000000000 * x ^ 3 * az - 1/75000000000000000000 * x ^ 4 * az,
   0,
   0,
   0,
   0,
   0⟩

/-- Block (4,3) of the C1 covariance closed form. -/
def sigb43 (az x : K) : Mat3 K :=
  ⟨0,
   0,
   0,
   0,
   0,
   0,
   0,
   0,
   0⟩

/-- Block (4,4) of the C1 covariance closed form. -/
def sigb44 (az x : K) : Mat3 K :=
  ⟨1/25000000000000 * x,
   0,
   0,
   0,
   1/25000000000000 * x,
   0,
   0,
   0,
   1/25000000000000 * x⟩

/-- The C1 covariance closed form over a field argument. -/
def sigK (az x : K) : Mat15 K :=
  ⟨sigb00 az x, sigb01 az x, sigb02 az x, sigb03 az x, sigb04 az x, sigb10 az x, sigb11 az x, sigb12 az x, sigb13 az x, sigb14 az x, sigb20 az x, sigb21 az x, sigb22 az x, sigb23 az x, sigb24 az x, sigb30 az x, sigb31 az x, sigb32 az x, sigb33 az x, sigb34 az x, sigb40 az x, sigb41 az x, sigb42 az x, sigb43 az x, sigb44 az x⟩

/-- Closed form of the covariance after `n` constant-input propagation
steps of the C1 scenario (smoothed acceleration `(0,0,az)`, zero angular
velocity, zero biases, `dt = 1/50`, default noise parameters). -/
def sigmaC1 (az : K) (n : ℕ) : Mat15 K := sigK az (n : K)
@[simp] theorem Mat3.m00_one : (1 : Mat3 K).m00 = 1 := rfl
@[simp] theorem Mat3.m01_one : (1 : Mat3 K).m01 = 0 := rfl
@[simp] theorem Mat3.m02_one : (1 : Mat3 K).m02 = 0 := rfl
@[simp] theorem Mat3.m10_one : (1 : Mat3 K).m10 = 0 := rfl
@[simp] theorem Mat3.m11_one : (1 : Mat3 K).m11 = 1 := rfl
@[simp] theorem Mat3.m12_one : (1 : Mat3 K).m12 = 0 := rfl
@[simp] theorem Mat3.m20_one : (1 : Mat3 K).m20 = 0 := rfl
@[simp] theorem Mat3.m21_one : (1 : Mat3 K).m21 = 0 := rfl
@[simp] theorem Mat3.m22_one : (1 : Mat3 K).m22 = 1 := rfl

theorem Mat3.one_mul (a : Mat3 K) : (1 : Mat3 K) * a = a := by
  cases a
  show Mat3.mk _ _ _ _ _ _ _ _ _ = _
  simp

theorem Mat3.mul_one (a : Mat3 K) : a * (1 : Mat3 K) = a := by
  cases a
  show Mat3.mk _ _ _ _ _ _ _ _ _ = _
  simp

theorem Mat3.one_mulVec (v : Vec3 K) : (1 : Mat3 K).mulVec v = v := by
  cases v
  show Vec3.mk _ _ _ = _
  simp [Mat3.mulVec]

@[simp] theorem Mat3.mk_mul_mk (a00 a01 a02 a10 a11 a12 a20 a21 a22
    b00 b01 b02 b10 b11 b12 b20 b21 b22 : K) :
    Mat3.mk a00 a01 a02 a10 a11 a12 a20 a21 a22 *
      Mat3.mk b00 b01 b02 b10 b11 b12 b20 b21 b22 =
    Mat3.mk (a00 * b00 + a01 * b10 + a02 * b20) (a00 * b01 + a01 * b11 + a02 * b21)
      (a00 * b02 + a01 * b12 + a02 * b22) (a10 * b00 + a11 * b10 + a12 * b20)
      (a10 * b01 + a11 * b11 + a12 * b21) (a10 * b02 + a11 * b12 + a12 * b22)
      (a20 * b00 + a21 * b10 + a22 * b20) (a20 * b01 + a21 * b11 + a22 * b21)
      (a20 * b02 + a21 * b12 + a22 * b22) := rfl

@[simp] theorem Mat3.mk_add_mk (a00 a01 a02 a10 a11 a12 a20 a21 a22
    b00 b01 b02 b10 b11 b12 b20 b21 b22 : K) :
    Mat3.mk a00 a01 a02 a10 a11 a12 a20 a21 a22 +
      Mat3.mk b00 b01 b02 b10 b11 b12 b20 b21 b22 =
    Mat3.mk (a00 + b00) (a01 + b01) (a02 + b02) (a10 + b10) (a11 + b11)
      (a12 + b12) (a20 + b20) (a21 + b21) (a22 + b22) := rfl

@[simp] theorem Mat3.neg_mk (a00 a01 a02 a10 a11 a12 a20 a21 a22 : K) :
    -Mat3.mk a00 a01 a02 a10 a11 a12 a20 a21 a22 =
    Mat3.mk (-a00) (-a01) (-a02) (-a10) (-a11) (-a12) (-a20) (-a21) (-a22) := rfl

@[simp] theorem Mat3.smul_mk (c a00 a01 a02 a10 a11 a12 a20 a21 a22 : K) :
    Mat3.smul c (Mat3.mk a00 a01 a02 a10 a11 a12 a20 a21 a22) =
    Mat3.mk (c * a00) (c * a01) (c * a02) (c * a10) (c * a11) (c * a12)
      (c * a20) (c * a21) (c * a22) := rfl

@[simp] theorem Mat3.transpose_mk (a00 a01 a02 a10 a11 a12 a20 a21 a22 : K) :
    (Mat3.mk a00 a01 a02 a10 a11 a12 a20 a21 a22).transpose =
    Mat3.mk a00 a10 a20 a01 a11 a21 a02 a12 a22 := rfl

@[simp] theorem Mat3.mk_mulVec (a00 a01 a02 a10 a11 a12 a20 a21 a22 x y z : K) :
    (Mat3.mk a00 a01 a02 a10 a11 a12 a20 a21 a22).mulVec (Vec3.mk x y z) =
    Vec3.mk (a00 * x + a01 * y + a02 * z) (a10 * x + a11 * y + a12 * z)
      (a20 * x + a21 * y + a22 * z) := rfl

@[simp] theorem Vec3.mkv_add_mkv (x1 y1 z1 x2 y2 z2 : K) :
    Vec3.mk x1 y1 z1 + Vec3.mk x2 y2 z2 = Vec3.mk (x1 + x2) (y1 + y2) (z1 + z2) := rfl

@[simp] theorem Vec3.mk_sub_mk (x1 y1 z1 x2 y2 z2 : K) :
    Vec3.mk x1 y1 z1 - Vec3.mk x2 y2 z2 = Vec3.mk (x1 - x2) (y1 - y2) (z1 - z2) := rfl

@[simp] theorem Vec3.smul_mkv (x y z c : K) :
    (Vec3.mk x y z).smul c = Vec3.mk (x * c) (y * c) (z * c) := rfl

theorem Mat3.one_def : (1 : Mat3 K) = Mat3.mk 1 0 0 0 1 0 0 0 1 := rfl

@[simp] theorem Mat3.add_m00 (a b : Mat3 K) : (a + b).m00 = a.m00 + b.m00 := rfl

/-- Negation moves out of a 3x3 matrix product. -/
theorem Mat3.neg_mul3 (a b : Mat3 K) : -a * b = -(a * b) := by
  cases a; cases b
  ext <;> (simp; ring)

/-- With exact trigonometry, `setRPY` at the zero vector is the identity
rotation. -/
theorem vec_to_rot_zero (T : TfOps K) (h1 : T.sin 0 = 0) (h2 : T.cos 0 = 1) :
    vec_to_rot T (0 : Vec3 K) = 1 := by
  show setRPY T 0 0 0 = 1
  simp only [setRPY, h1, h2]
  ext <;> simp

theorem cos_four_neg : Real.cos 4 < 0 := by
  have hpi1 := Real.pi_gt_d6
  have hpi2 := Real.pi_lt_d2
  have h1 : Real.pi / 2 < 4 := by linarith
  exact Real.cos_neg_of_pi_div_two_lt_of_lt h1 (by linarith)

theorem cos_five_pos : 0 < Real.cos 5 := by
  have hpi1 := Real.pi_gt_d6
  have hpi2 := Real.pi_lt_d2
  have h : Real.cos (5 - 2 * Real.pi) = Real.cos 5 := Real.cos_sub_two_pi 5
  rw [← h]
  apply Real.cos_pos_of_mem_Ioo
  constructor
  · show -(Real.pi / 2) < 5 - 2 * Real.pi
    linarith
  · show 5 - 2 * Real.pi < Real.pi / 2
    linarith

/-- The m00 entry of the rotation produced by `setRPY` with real
trigonometry on the vector `(3, 4, 0)`. -/
theorem setRPY_340_m00 : (setRPY realTf 3 4 0).m00 = Real.cos 4 := by
  simp [setRPY, realTf]

/-- The m00 entry of the exact exponential map at the vector `(3, 4, 0)`. -/
theorem expRotSpec_340_m00 :
    (expRotSpec ⟨3, 4, 0⟩).m00 = 1 - 16 * (1 - Real.cos 5) / 25 := by
  have hs : Real.sqrt ((3 : ℝ) * 3 + 4 * 4 + 0 * 0) = 5 := by
    rw [show (3 : ℝ) * 3 + 4 * 4 + 0 * 0 = 5 ^ 2 by norm_num]
    exact Real.sqrt_sq (by norm_num)
  simp only [expRotSpec, skew, hs, Mat3.mk_mul_mk, Mat3.smul_mk, Mat3.add_m00,
    Mat3.m00_one]
  ring

/-- `cos 4` (negative) differs from the exponential-map entry (positive). -/
theorem cos4_ne_exp_entry : Real.cos 4 ≠ 1 - 16 * (1 - Real.cos 5) / 25 := by
  have h4 := cos_four_neg
  have h5 := cos_five_pos
  intro h
  nlinarith

/-- The Euler-angle construction and the exponential map disagree at the
rotation vector `(3, 4, 0)`. -/
theorem rpy_ne_exp_at_340 :
    setRPY realTf 3 4 0 ≠ expRotSpec ⟨3, 4, 0⟩ := by
  intro h
  have hm := congrArg Mat3.m00 h
  rw [setRPY_340_m00, expRotSpec_340_m00] at hm
  exact cos4_ne_exp_entry hm

/-- The incremental rotation vector of `sC3` is `(3, 4, 0)`. -/
theorem sC3_arg :
    (sC3.imu_angular_velocity - sC3.bias_gyr).smul sC3.dt = (⟨3, 4, 0⟩ : Vec3 ℝ) := by
  show ((⟨150, 200, 0⟩ : Vec3 ℝ) - (⟨0, 0, 0⟩ : Vec3 ℝ)).smul ((1 : ℝ) / 50) = _
  simp [Vec3.smul]
  norm_num
/-- C2: one propagation step sets the new velocity to
`v + (R*(a - b_a) + g)*dt`, the new position to
`p + v*dt + (R*(a - b_a) + g)*dt^2/2` using the pre-update velocity, and
leaves both bias vectors unchanged. -/
theorem C2_propagate_nominal (T : TfOps K) (s : ESKFState K) :
    (propagate_state T s).velocity =
        s.velocity + (s.rotation.mulVec (s.imu_acceleration - s.bias_acc) + s.gravity).smul s.dt
    ∧ (propagate_state T s).position =
        s.position + s.velocity.smul s.dt +
          ((s.rotation.mulVec (s.imu_acceleration - s.bias_acc) + s.gravity).smul
            (s.dt * s.dt / 2))
    ∧ (propagate_state T s).bias_acc = s.bias_acc
    ∧ (propagate_state T s).bias_gyr = s.bias_gyr := by
  refine ⟨rfl, ?_, rfl, rfl⟩
  show s.position + s.velocity.smul s.dt +
      ((((s.rotation.mulVec (s.imu_acceleration - s.bias_acc) + s.gravity).smul
        (1 / 2)).smul s.dt).smul s.dt) = _
  congr 1
  ext <;> (simp [Vec3.smul]; ring)

/-- C3 as stated is false: at a freshly initialized state with angular
velocity `(150, 200, 0)` and `dt = 1/50`, the propagated orientation is not
`R * Exp((w - b_g)*dt)` for the exact exponential map `Exp` — the code uses
an Euler roll-pitch-yaw construction instead. -/
theorem C3_counterexample :
    (propagate_state realTf sC3).rotation ≠
      sC3.rotation * expRotSpec ((sC3.imu_angular_velocity - sC3.bias_gyr).smul sC3.dt) := by
  show sC3.rotation * vec_to_rot realTf ((sC3.imu_angular_velocity - sC3.bias_gyr).smul sC3.dt)
      ≠ _
  rw [sC3_arg]
  show (1 : Mat3 ℝ) * vec_to_rot realTf ⟨3, 4, 0⟩ ≠ (1 : Mat3 ℝ) * expRotSpec ⟨3, 4, 0⟩
  rw [Mat3.one_mul, Mat3.one_mul]
  exact rpy_ne_exp_at_340

/-- C3 amended: one propagation step sets the new orientation to
`R' = R * RPY((w - b_g)*dt)`, where `RPY` is the Euler-angle
(roll-pitch-yaw) rotation construction `vec_to_rot` applied to the
components of the rotation vector — not the exponential map — and the
redundant quaternion is re-derived from `R'` after the update. -/
theorem C3_amended (T : TfOps K) (s : ESKFState K) :
    (propagate_state T s).rotation =
        s.rotation * vec_to_rot T ((s.imu_angular_velocity - s.bias_gyr).smul s.dt)
    ∧ (propagate_state T s).quaternion = T.matToQuat ((propagate_state T s).rotation) :=
  ⟨rfl, rfl⟩

/-- C5 as stated is false: the attitude block of `Fx` is the transpose of
the Euler-angle incremental rotation, not of the exact exponential map
`Exp((w - b_g)*dt)`; at `sC3` the two Jacobians differ. -/
theorem C5_counterexample :
    (propagate_covariance realTf sC3).Fx ≠ FxSpecExp sC3 := by
  intro h
  have hb := congrArg Mat15.b11 h
  show False
  rw [show (propagate_covariance realTf sC3).Fx.b11 =
      (vec_to_rot realTf ((sC3.imu_angular_velocity - sC3.bias_gyr).smul sC3.dt)).transpose
      from rfl,
    show (FxSpecExp sC3).b11 =
      (expRotSpec ((sC3.imu_angular_velocity - sC3.bias_gyr).smul sC3.dt)).transpose
      from rfl, sC3_arg] at hb
  have hm := congrArg Mat3.m00 hb
  have hm2 : (setRPY realTf 3 4 0).m00 = (expRotSpec ⟨3, 4, 0⟩).m00 := hm
  rw [setRPY_340_m00, expRotSpec_340_m00] at hm2
  exact cos4_ne_exp_entry hm2

/-- C5 amended: the covariance step computes
`Sigma := Fx*Sigma*Fxᵀ + Fn*Q*Fnᵀ` with `Fx` exactly as the claim lays it
out except that the attitude block is the transpose of the code's
Euler-angle incremental rotation `vec_to_rot((w - b_g)*dt)` rather than of
the exact exponential map; `Q` is block-diagonal with blocks
`sigma^2*dt^2*I`; and `Fn` has an all-zero position-error block row. -/
theorem C5_amended (T : TfOps K) (s : ESKFState K) :
    (propagate_covariance T s).Fx = FxSpecRPY T s
    ∧ (propagate_covariance T s).Fn = FnSpec s
    ∧ (propagate_covariance T s).Q = QSpec s
    ∧ (propagate_covariance T s).Sigma =
        mul15 (mul15 (FxSpecRPY T s) s.Sigma) (transpose15 (FxSpecRPY T s)) +
          mulABt1512 (mul1512x12 (FnSpec s) (QSpec s)) (FnSpec s)
    ∧ (FnSpec s).b20 = 0 ∧ (FnSpec s).b21 = 0 ∧ (FnSpec s).b22 = 0 ∧ (FnSpec s).b23 = 0 := by
  have hFx : fxJac T s = FxSpecRPY T s := by
    unfold fxJac FxSpecRPY
    simp only [Mat3.neg_mul3]
  have hQ : qNoise s = QSpec s := by
    unfold qNoise QSpec
    congr 1 <;> · congr 1; ring
  have hFn : fnJac s = FnSpec s := rfl
  refine ⟨hFx, hFn, hQ, ?_, rfl, rfl, rfl, rfl⟩
  have hSigma0 : (propagate_covariance T s).Sigma =
      mul15 (mul15 (fxJac T s) s.Sigma) (transpose15 (fxJac T s)) +
        mulABt1512 (mul1512x12 (fnJac s) (qNoise s)) (fnJac s) := rfl
  rw [hFx, hFn, hQ] at hSigma0
  exact hSigma0

/-- C9 as stated is false: at `sC9` (attitude covariance block `I`, position
block `2I`, identity rotation) the published pose covariance has the
position block in the top-left, not the attitude block. -/
theorem C9_counterexample : (publish_odom sC9).pose_cov ≠ poseCovSpec sC9 := by
  intro h
  have hm := congrArg (fun m => m.b00.m00) h
  have hm2 : (Mat3.smul (2 : ℚ) 1).m00 = (1 : Mat3 ℚ).m00 := hm
  rw [Mat3.m00_one] at hm2
  have : (2 : ℚ) * 1 = 1 := hm2
  norm_num at this

/-- C9 amended: the published 6x6 pose covariance is assembled in
`[position; attitude]` block order — the position block `Sigma_pp` top-left
taken from `Sigma` directly, the attitude block bottom-right conjugated by
the nominal rotation (`R * Sigma_theta_theta * Rᵀ`), and the cross blocks
one-sidedly multiplied (`Sigma_theta_p * Rᵀ` top-right, `R * Sigma_p_theta`
bottom-left). -/
theorem C9_amended (s : ESKFState K) :
    (publish_odom s).pose_cov =
      ⟨s.Sigma.b22, s.Sigma.b12 * s.rotation.transpose,
       s.rotation * s.Sigma.b21, s.rotation * s.Sigma.b11 * s.rotation.transpose⟩ := rfl
/-- C6: for a correction with pending observation `y = [rpy; position]` and
supplied covariance `R_meas` with invertible innovation covariance, the
observation matrix is the claim's `H`, the gain is
`K = Sigma*Hᵀ*(H*Sigma*Hᵀ + R_meas)⁻¹`, the error-state mean becomes
`K*(y - H*x)`, and the covariance becomes the Joseph form
`(I - K*H)*Sigma*(I - K*H)ᵀ + K*R_meas*Kᵀ`. -/
theorem C6_correction (T : TfOps K) (s : ESKFState K)
    (hinv : det6 (mulABt615 (mul615x15 HObsSpec s.Sigma) HObsSpec + s.m_pose_sigma) ≠ 0) :
    (obsH : Mat6x15 K) = HObsSpec
    ∧ kGain s = kGainSpec s
    ∧ (⟨(update_error T s).d_velocity, (update_error T s).d_theta,
        (update_error T s).d_position, (update_error T s).d_bias_acc,
        (update_error T s).d_bias_gyr⟩ : Vec15 K) =
        mulVec156 (kGainSpec s) (obsY s - mulVec615 HObsSpec (errX s))
    ∧ (update_error T s).Sigma =
        mulABt15 (mul15 ((1 : Mat15 K) - mul156x615 (kGainSpec s) HObsSpec) s.Sigma)
            ((1 : Mat15 K) - mul156x615 (kGainSpec s) HObsSpec) +
          mulABt156 (mul156x6 (kGainSpec s) s.m_pose_sigma) (kGainSpec s) := by
  have hH : (obsH : Mat6x15 K) = HObsSpec := rfl
  have hK : (kGain s : Mat15x6 K) = kGainSpec s := by
    unfold kGain kGainSpec innovCov
    rw [hH]
  refine ⟨hH, hK, ?_, ?_⟩
  · have h1 : (⟨(update_error T s).d_velocity, (update_error T s).d_theta,
        (update_error T s).d_position, (update_error T s).d_bias_acc,
        (update_error T s).d_bias_gyr⟩ : Vec15 K) = errPost s := rfl
    rw [h1]
    show mulVec156 (kGain s) (obsY s - mulVec615 obsH (errX s)) = _
    rw [hK, hH]
  · show mulABt15 (mul15 (josephM s) s.Sigma) (josephM s) +
        mulABt156 (mul156x6 (kGain s) s.m_pose_sigma) (kGain s) = _
    unfold josephM
    rw [hK, hH]

set_option maxRecDepth 40000 in
set_option maxHeartbeats 2000000 in
/-- Witness for C6 at the concrete state `sC6` (prior covariance `I`,
observation covariance `I`): the innovation covariance is invertible and
the correction takes the claimed form. -/
theorem C6_correction_witness :
    (obsH : Mat6x15 ℚ) = HObsSpec
    ∧ kGain sC6 = kGainSpec sC6
    ∧ (⟨(update_error ratTf sC6).d_velocity, (update_error ratTf sC6).d_theta,
        (update_error ratTf sC6).d_position, (update_error ratTf sC6).d_bias_acc,
        (update_error ratTf sC6).d_bias_gyr⟩ : Vec15 ℚ) =
        mulVec156 (kGainSpec sC6) (obsY sC6 - mulVec615 HObsSpec (errX sC6))
    ∧ (update_error ratTf sC6).Sigma =
        mulABt15 (mul15 ((1 : Mat15 ℚ) - mul156x615 (kGainSpec sC6) HObsSpec) sC6.Sigma)
            ((1 : Mat15 ℚ) - mul156x615 (kGainSpec sC6) HObsSpec) +
          mulABt156 (mul156x6 (kGainSpec sC6) sC6.m_pose_sigma) (kGainSpec sC6) :=
  C6_correction ratTf sC6 (by
    rw [show det6 (mulABt615 (mul615x15 HObsSpec sC6.Sigma) HObsSpec + sC6.m_pose_sigma)
        = 64 from by with_unfolding_all rfl]
    norm_num)
/-- The pending flag is cleared by every inertial event. -/
theorem imu_got_false (T : TfOps K) (m : ImuMsg K) (s : ESKFState K) :
    (imu_callback T m s).got_measurements = false := by
  simp only [imu_callback]
  split
  · rfl
  · next h => exact Bool.not_eq_true _ ▸ eq_false_of_ne_true h

/-- The propagation stages of an inertial event touch neither the
error-state mean, the error rotation, nor the pending flag. -/
theorem pipeline_keeps_d (T : TfOps K) (m : ImuMsg K) (s : ESKFState K) :
    (propagate_covariance T (propagate_state T (propagate_error
        (update_imu m (update_time m s))))).d_velocity = s.d_velocity
    ∧ (propagate_covariance T (propagate_state T (propagate_error
        (update_imu m (update_time m s))))).d_theta = s.d_theta
    ∧ (propagate_covariance T (propagate_state T (propagate_error
        (update_imu m (update_time m s))))).d_position = s.d_position
    ∧ (propagate_covariance T (propagate_state T (propagate_error
        (update_imu m (update_time m s))))).d_bias_acc = s.d_bias_acc
    ∧ (propagate_covariance T (propagate_state T (propagate_error
        (update_imu m (update_time m s))))).d_bias_gyr = s.d_bias_gyr
    ∧ (propagate_covariance T (propagate_state T (propagate_error
        (update_imu m (update_time m s))))).d_rotation = s.d_rotation
    ∧ (propagate_covariance T (propagate_state T (propagate_error
        (update_imu m (update_time m s))))).got_measurements = s.got_measurements := by
  unfold propagate_covariance propagate_state propagate_error update_imu update_time
  split <;> (dsimp only; split <;> exact ⟨rfl, rfl, rfl, rfl, rfl, rfl, rfl⟩)

/-- Zero error-state mean is preserved by every event. -/
theorem errMeanZero_run (T : TfOps K) :
    ∀ (evs : List (Ev K)) (s : ESKFState K), errMeanZero s → errMeanZero (runEvents T s evs)
  | [], _, h => h
  | e :: es, s, h => by
    refine errMeanZero_run T es _ ?_
    cases e with
    | pose m => exact h
    | inertial m =>
      show errMeanZero (imu_callback T m s)
      obtain ⟨h1, h2, h3, h4, h5, h6, _⟩ := pipeline_keeps_d T m s
      simp only [imu_callback]
      split
      · exact ⟨rfl, rfl, rfl, rfl, rfl, rfl⟩
      · exact ⟨h1.trans h.1, h2.trans h.2.1, h3.trans h.2.2.1, h4.trans h.2.2.2.1,
          h5.trans h.2.2.2.2.1, h6.trans h.2.2.2.2.2⟩

/-- C7: after a completed correction cycle (error update, injection into the
nominal state, reset) the error-state mean is exactly zero and the error
rotation is the identity, for every prior state; the reset and injection do
not touch `Sigma`, which therefore remains the Joseph-form posterior of the
update step; and the error-state mean is zero at the start of every
event-handling cycle of a run from the initial state. -/
theorem C7_reset_zero_mean (T : TfOps K) (s : ESKFState K) :
    errMeanZero (reset_error (update_state T (update_error T s)))
    ∧ (reset_error (update_state T (update_error T s))).Sigma = (update_error T s).Sigma
    ∧ ∀ (p : Params K) (evs : List (Ev K)), errMeanZero (runEvents T (initESKF p) evs) := by
  refine ⟨⟨rfl, rfl, rfl, rfl, rfl, rfl⟩, rfl, ?_⟩
  intro p evs
  exact errMeanZero_run T evs _ ⟨rfl, rfl, rfl, rfl, rfl, rfl⟩

/-- Corrections consume pending observations: a run performs at most one
correction per pose event. -/
theorem countCorr_le (T : TfOps K) :
    ∀ (evs : List (Ev K)) (s : ESKFState K),
      countCorrections T s evs ≤ countPoses evs + (if s.got_measurements then 1 else 0)
  | [], s => by simp [countCorrections, countPoses]
  | Ev.inertial m :: es, s => by
    have ih := countCorr_le T es (imu_callback T m s)
    rw [imu_got_false T m s] at ih
    show (if s.got_measurements then 1 else 0) + countCorrections T (imu_callback T m s) es ≤
      countPoses es + (if s.got_measurements then 1 else 0)
    simp only [Bool.false_eq_true, if_false, Nat.add_zero] at ih
    cases s.got_measurements <;> simp <;> omega
  | Ev.pose m :: es, s => by
    have ih := countCorr_le T es (measurement_callback T m s)
    have hg : (measurement_callback T m s).got_measurements = true := rfl
    rw [hg] at ih
    simp at ih
    show countCorrections T (measurement_callback T m s) es ≤
      (1 + countPoses es) + (if s.got_measurements then 1 else 0)
    cases s.got_measurements <;> simp <;> omega

/-- C8: a newly arriving observation overwrites the single pending slot and
raises the flag regardless of the previous state; an inertial event always
leaves the flag cleared, runs only the propagation stages when no
observation is pending, and runs the correction (error update, injection,
reset) immediately after propagation, consuming the observation, when one
is pending; and over any event sequence from the initial state the number
of corrections performed is at most the number of pose events. -/
theorem C8_pending_protocol (T : TfOps K) :
    (∀ (s : ESKFState K) (m : OdomMsg K),
        (measurement_callback T m s).got_measurements = true
        ∧ (measurement_callback T m s).m_position = m.position
        ∧ (measurement_callback T m s).m_theta = T.rpyOfMat (setRotationQ m.orientation)
        ∧ (measurement_callback T m s).m_pose_sigma = m.pose_cov)
    ∧ (∀ (s : ESKFState K) (m : ImuMsg K),
        (imu_callback T m s).got_measurements = false
        ∧ (s.got_measurements = false →
            imu_callback T m s =
              propagate_covariance T (propagate_state T (propagate_error
                (update_imu m (update_time m s)))))
        ∧ (s.got_measurements = true →
            imu_callback T m s =
              { reset_error (update_state T (update_error T
                  (propagate_covariance T (propagate_state T (propagate_error
                    (update_imu m (update_time m s))))))) with got_measurements := false }))
    ∧ (∀ (p : Params K) (evs : List (Ev K)),
        countCorrections T (initESKF p) evs ≤ countPoses evs) := by
  refine ⟨fun s m => ⟨rfl, rfl, rfl, rfl⟩, fun s m => ⟨imu_got_false T m s, ?_, ?_⟩, ?_⟩
  · intro h
    have e : (propagate_covariance T (propagate_state T (propagate_error
        (update_imu m (update_time m s))))).got_measurements = false :=
      (pipeline_keeps_d T m s).2.2.2.2.2.2.trans h
    simp only [imu_callback, e, Bool.false_eq_true, if_false]
  · intro h
    have e : (propagate_covariance T (propagate_state T (propagate_error
        (update_imu m (update_time m s))))).got_measurements = true :=
      (pipeline_keeps_d T m s).2.2.2.2.2.2.trans h
    simp only [imu_callback, e, if_true]
  · intro p evs
    have := countCorr_le T evs (initESKF p)
    simpa using this
/-- Witness for C8: on the freshly constructed filter (no pending
observation) an inertial event runs exactly the propagation stages. -/
theorem C8_pending_protocol_witness :
    imu_callback ratTf msgW (initESKF defaultParams) =
      propagate_covariance ratTf (propagate_state ratTf (propagate_error
        (update_imu msgW (update_time msgW (initESKF defaultParams))))) :=
  ((C8_pending_protocol ratTf).2.1 (initESKF defaultParams) msgW).2.1 rfl

/-- `update_time` commutes with overwriting the stored measurement twist. -/
theorem ut_twist (m : ImuMsg K) (s : ESKFState K) (a : Vec3 K) (b : Mat6 K) :
    update_time m { s with m_velocity := a, m_twist_sigma := b } =
      { update_time m s with m_velocity := a, m_twist_sigma := b } := by
  by_cases h : s.init_time = true <;> simp [update_time, h]

/-- `update_imu` commutes with overwriting the stored measurement twist. -/
theorem ui_twist (m : ImuMsg K) (s : ESKFState K) (a : Vec3 K) (b : Mat6 K) :
    update_imu m { s with m_velocity := a, m_twist_sigma := b } =
      { update_imu m s with m_velocity := a, m_twist_sigma := b } := by
  by_cases h : s.acc_queue_count < s.params.acc_queue_size <;> simp [update_imu, h]

/-- `propagate_state` commutes with overwriting the stored measurement twist. -/
theorem ps_twist (T : TfOps K) (s : ESKFState K) (a : Vec3 K) (b : Mat6 K) :
    propagate_state T { s with m_velocity := a, m_twist_sigma := b } =
      { propagate_state T s with m_velocity := a, m_twist_sigma := b } := rfl

/-- The Kalman gain depends only on the prior covariance and the stored
observation covariance. -/
theorem kGain_congr (s1 s2 : ESKFState K) (hS : s1.Sigma = s2.Sigma)
    (hm : s1.m_pose_sigma = s2.m_pose_sigma) : kGain s1 = kGain s2 := by
  unfold kGain innovCov
  rw [hS, hm]

/-- `propagate_covariance` commutes with overwriting the stored measurement
twist. -/
theorem pc_twist (T : TfOps K) (s : ESKFState K) (a : Vec3 K) (b : Mat6 K) :
    propagate_covariance T { s with m_velocity := a, m_twist_sigma := b } =
      { propagate_covariance T s with m_velocity := a, m_twist_sigma := b } := by
  have h1 : fxJac T { s with m_velocity := a, m_twist_sigma := b } = fxJac T s := rfl
  have h2 : fnJac { s with m_velocity := a, m_twist_sigma := b } = fnJac s := rfl
  have h3 : qNoise { s with m_velocity := a, m_twist_sigma := b } = qNoise s := rfl
  unfold propagate_covariance
  rw [h1, h2, h3]

/-- `update_error` commutes with overwriting the stored measurement twist:
the Kalman update reads neither the measured velocity nor the twist
covariance. -/
theorem ue_twist (T : TfOps K) (s : ESKFState K) (a : Vec3 K) (b : Mat6 K) :
    update_error T { s with m_velocity := a, m_twist_sigma := b } =
      { update_error T s with m_velocity := a, m_twist_sigma := b } := by
  have hkg : kGain { s with m_velocity := a, m_twist_sigma := b } = kGain s :=
    kGain_congr _ _ rfl rfl
  have hep : errPost { s with m_velocity := a, m_twist_sigma := b } = errPost s := by
    unfold errPost obsY errX
    rw [hkg]
  have hjm : josephM { s with m_velocity := a, m_twist_sigma := b } = josephM s := by
    unfold josephM
    rw [hkg]
  unfold update_error
  rw [hep, hjm, hkg]

/-- `propagate_error` commutes with overwriting the stored measurement
twist. -/
theorem pe_twist (s : ESKFState K) (a : Vec3 K) (b : Mat6 K) :
    propagate_error { s with m_velocity := a, m_twist_sigma := b } =
      { propagate_error s with m_velocity := a, m_twist_sigma := b } := rfl

/-- `update_state` commutes with overwriting the stored measurement twist. -/
theorem us_twist (T : TfOps K) (s : ESKFState K) (a : Vec3 K) (b : Mat6 K) :
    update_state T { s with m_velocity := a, m_twist_sigma := b } =
      { update_state T s with m_velocity := a, m_twist_sigma := b } := rfl

/-- `reset_error` commutes with overwriting the stored measurement twist. -/
theorem re_twist (s : ESKFState K) (a : Vec3 K) (b : Mat6 K) :
    reset_error { s with m_velocity := a, m_twist_sigma := b } =
      { reset_error s with m_velocity := a, m_twist_sigma := b } := rfl

/-- The correction cycle (error update, injection, reset) commutes with
overwriting the stored measurement twist. -/
theorem cyc_twist (T : TfOps K) (S : ESKFState K) (a : Vec3 K) (b : Mat6 K) :
    reset_error (update_state T (update_error T
        { S with m_velocity := a, m_twist_sigma := b })) =
      { reset_error (update_state T (update_error T S)) with
          m_velocity := a, m_twist_sigma := b } := by
  rw [ue_twist, us_twist, re_twist]

/-- The whole inertial event handler commutes with overwriting the stored
measurement twist. -/
theorem imu_twist (T : TfOps K) (m : ImuMsg K) (s : ESKFState K) (a : Vec3 K) (b : Mat6 K) :
    imu_callback T m { s with m_velocity := a, m_twist_sigma := b } =
      { imu_callback T m s with m_velocity := a, m_twist_sigma := b } := by
  have hpipe : propagate_covariance T (propagate_state T (propagate_error
      (update_imu m (update_time m { s with m_velocity := a, m_twist_sigma := b })))) =
      { propagate_covariance T (propagate_state T (propagate_error
          (update_imu m (update_time m s)))) with m_velocity := a, m_twist_sigma := b } := by
    rw [ut_twist, ui_twist, pe_twist, ps_twist, pc_twist]
  simp only [imu_callback]
  rw [hpipe]
  split
  · exact congrArg (fun z => ({ z with got_measurements := false } : ESKFState K))
      (cyc_twist T (propagate_covariance T (propagate_state T (propagate_error
        (update_imu m (update_time m s))))) a b)
  · rfl

/-- C10: two pose observations that agree on pose position, orientation and
pose covariance but differ arbitrarily in twist and twist covariance lead,
after the next inertial event, to identical nominal state (velocity,
rotation, position, both biases) and identical `Sigma`. -/
theorem C10_twist_noninterference (T : TfOps K) (s : ESKFState K) (m1 m2 : OdomMsg K)
    (im : ImuMsg K) (hp : m1.position = m2.position) (ho : m1.orientation = m2.orientation)
    (hc : m1.pose_cov = m2.pose_cov) :
    (imu_callback T im (measurement_callback T m1 s)).velocity =
        (imu_callback T im (measurement_callback T m2 s)).velocity
    ∧ (imu_callback T im (measurement_callback T m1 s)).rotation =
        (imu_callback T im (measurement_callback T m2 s)).rotation
    ∧ (imu_callback T im (measurement_callback T m1 s)).position =
        (imu_callback T im (measurement_callback T m2 s)).position
    ∧ (imu_callback T im (measurement_callback T m1 s)).bias_acc =
        (imu_callback T im (measurement_callback T m2 s)).bias_acc
    ∧ (imu_callback T im (measurement_callback T m1 s)).bias_gyr =
        (imu_callback T im (measurement_callback T m2 s)).bias_gyr
    ∧ (imu_callback T im (measurement_callback T m1 s)).Sigma =
        (imu_callback T im (measurement_callback T m2 s)).Sigma := by
  have hmc : measurement_callback T m1 s =
      { measurement_callback T m2 s with
          m_velocity := m1.twist_linear, m_twist_sigma := m1.twist_cov } := by
    unfold measurement_callback
    rw [hp, ho, hc]
  rw [hmc, imu_twist]
  exact ⟨rfl, rfl, rfl, rfl, rfl, rfl⟩

/-- Witness for C10 at concrete observations differing only in twist. -/
theorem C10_twist_noninterference_witness :
    (imu_callback ratTf msgW (measurement_callback ratTf odomW (initESKF defaultParams))).velocity =
        (imu_callback ratTf msgW (measurement_callback ratTf odomW2 (initESKF defaultParams))).velocity
    ∧ (imu_callback ratTf msgW (measurement_callback ratTf odomW (initESKF defaultParams))).rotation =
        (imu_callback ratTf msgW (measurement_callback ratTf odomW2 (initESKF defaultParams))).rotation
    ∧ (imu_callback ratTf msgW (measurement_callback ratTf odomW (initESKF defaultParams))).position =
        (imu_callback ratTf msgW (measurement_callback ratTf odomW2 (initESKF defaultParams))).position
    ∧ (imu_callback ratTf msgW (measurement_callback ratTf odomW (initESKF defaultParams))).bias_acc =
        (imu_callback ratTf msgW (measurement_callback ratTf odomW2 (initESKF defaultParams))).bias_acc
    ∧ (imu_callback ratTf msgW (measurement_callback ratTf odomW (initESKF defaultParams))).bias_gyr =
        (imu_callback ratTf msgW (measurement_callback ratTf odomW2 (initESKF defaultParams))).bias_gyr
    ∧ (imu_callback ratTf msgW (measurement_callback ratTf odomW (initESKF defaultParams))).Sigma =
        (imu_callback ratTf msgW (measurement_callback ratTf odomW2 (initESKF defaultParams))).Sigma :=
  C10_twist_noninterference ratTf (initESKF defaultParams) odomW odomW2 msgW rfl rfl rfl
/-- C4 as stated is false: with the default capacity 5, after pushing the
two samples `(2,0,0)` and `(4,0,0)` the acceleration handed to propagation
is the raw latest sample `(4,0,0)`, not the arithmetic mean `(3,0,0)` of
the `min(k, N) = 2` most recent samples. -/
theorem C4_counterexample :
    (pushAll [msgA, msgB] (initESKF defaultParams)).imu_acceleration ≠
      ((⟨2, 0, 0⟩ : Vec3 ℚ) + ⟨4, 0, 0⟩).smul (1 / 2) := by
  have h : (pushAll [msgA, msgB] (initESKF defaultParams)).imu_acceleration =
      ⟨4, 0, 0⟩ := by
    norm_num [pushAll, update_imu, initESKF, defaultParams, msgA, msgB]
  rw [h]
  intro hcontra
  have hx := congrArg Vec3.x hcontra
  simp [Vec3.smul] at hx
  norm_num at hx
theorem getD_range_map {α β : Type} (l : List α) (d : α) (f : α → β) :
    (List.range l.length).map (fun i => f (l.getD i d)) = l.map f := by
  refine List.ext_get (by simp) ?_
  intro i h1 h2
  simp only [List.get_eq_getElem, List.getElem_map, List.getElem_range]
  rw [List.getD_eq_getElem l d (by simpa using h2)]

theorem getD_range_mapn {α β : Type} (l : List α) (d : α) (f : α → β) (n : ℕ)
    (hn : l.length = n) :
    (List.range n).map (fun i => f (l.getD i d)) = l.map f := by
  subst hn
  exact getD_range_map l d f

theorem sum_map_div {α : Type} (l : List α) (f : α → K) (c : K) :
    (l.map (fun v => f v / c)).sum = (l.map f).sum / c := by
  induction l with
  | nil => simp
  | cons a t ih => simp [ih, add_div]

theorem set_append_length {α : Type} (l1 l2 : List α) (a : α) :
    (l1 ++ l2).set l1.length a = l1 ++ l2.set 0 a := by
  induction l1 with
  | nil => rfl
  | cons x t ih => simp [List.set, ih]

/-- One ring-buffer overwrite, in slice form: writing the `k % N`-th slot of
the buffer holding the most recent `N` of `k` samples yields the buffer
holding the most recent `N` of the `k + 1` samples (both described by
explicit drop/take slices, rotated by the write position). -/
theorem ring_set_step {α : Type} (accs : List α) (a : α) (N : ℕ)
    (hN : 1 ≤ N) (hk : N ≤ accs.length) :
    ((accs.drop (accs.length - accs.length % N) ++
        (accs.drop (accs.length - N)).take (N - accs.length % N)).set
      (accs.length % N) a) =
    (accs ++ [a]).drop (accs.length + 1 - (accs.length + 1) % N) ++
      ((accs ++ [a]).drop (accs.length + 1 - N)).take (N - (accs.length + 1) % N) := by
  have hr : accs.length % N < N := Nat.mod_lt _ (by omega)
  have hlen1 : (accs.drop (accs.length - accs.length % N)).length = accs.length % N := by
    rw [List.length_drop]
    omega
  have hlen2 : (accs.drop (accs.length - N)).length = N := by
    rw [List.length_drop]
    omega
  obtain ⟨b, rest, hcons⟩ : ∃ b rest, accs.drop (accs.length - N) = b :: rest := by
    cases hd : accs.drop (accs.length - N) with
    | nil =>
      rw [hd] at hlen2
      simp at hlen2
      omega
    | cons b rest => exact ⟨b, rest, rfl⟩
  have hrest : rest = accs.drop (accs.length - N + 1) := by
    have hdd : (accs.drop (accs.length - N)).drop 1 =
        accs.drop (accs.length - N + 1) := List.drop_drop 1 _ accs
    rw [hcons] at hdd
    simpa using hdd
  have hset : (accs.drop (accs.length - accs.length % N) ++
      (accs.drop (accs.length - N)).take (N - accs.length % N)).set (accs.length % N) a =
      accs.drop (accs.length - accs.length % N) ++
        ((accs.drop (accs.length - N)).take (N - accs.length % N)).set 0 a := by
    have h := set_append_length (accs.drop (accs.length - accs.length % N))
      ((accs.drop (accs.length - N)).take (N - accs.length % N)) a
    rw [hlen1] at h
    exact h
  have htake : (accs.drop (accs.length - N)).take (N - accs.length % N) =
      b :: rest.take (N - accs.length % N - 1) := by
    rw [hcons, show N - accs.length % N = (N - accs.length % N - 1) + 1 from by omega,
      List.take_succ_cons]
    simp
  rw [hset, htake]
  show accs.drop (accs.length - accs.length % N) ++
      a :: rest.take (N - accs.length % N - 1) = _
  by_cases hwrap : accs.length % N + 1 = N
  · have hmod : (accs.length + 1) % N = 0 := by
      have hdm := Nat.div_add_mod accs.length N
      have hms : N * (accs.length / N + 1) = N * (accs.length / N) + N :=
        Nat.mul_succ N _
      rw [show accs.length + 1 = 0 + N * (accs.length / N + 1) from by omega,
        Nat.add_mul_mod_self_left, Nat.zero_mod]
    rw [hmod]
    have h1 : (accs ++ [a]).drop (accs.length + 1 - 0) = [] :=
      List.drop_eq_nil_of_le (by simp)
    have h2 : (accs ++ [a]).drop (accs.length + 1 - N) =
        accs.drop (accs.length + 1 - N) ++ [a] := by
      rw [List.drop_append_eq_append_drop,
        show accs.length + 1 - N - accs.length = 0 from by omega, List.drop_zero]
    have h3 : (accs.drop (accs.length + 1 - N) ++ [a]).take (N - 0) =
        accs.drop (accs.length + 1 - N) ++ [a] := by
      apply List.take_of_length_le
      rw [List.length_append, List.length_drop]
      simp
      omega
    rw [h1, h2, h3, List.nil_append,
      show N - accs.length % N - 1 = 0 from by omega, List.take_zero,
      show accs.length - accs.length % N = accs.length + 1 - N from by omega]
  · have hmod : (accs.length + 1) % N = accs.length % N + 1 := by
      have hdm := Nat.div_add_mod accs.length N
      rw [show accs.length + 1 = accs.length % N + 1 + N * (accs.length / N) from by omega,
        Nat.add_mul_mod_self_left, Nat.mod_eq_of_lt (by omega)]
    rw [hmod]
    have h2 : (accs ++ [a]).drop (accs.length + 1 - (accs.length % N + 1)) =
        accs.drop (accs.length - accs.length % N) ++ [a] := by
      rw [List.drop_append_eq_append_drop,
        show accs.length + 1 - (accs.length % N + 1) = accs.length - accs.length % N
          from by omega,
        show accs.length - accs.length % N - accs.length = 0 from by omega, List.drop_zero]
    have h3 : (accs ++ [a]).drop (accs.length + 1 - N) =
        accs.drop (accs.length + 1 - N) ++ [a] := by
      rw [List.drop_append_eq_append_drop,
        show accs.length + 1 - N - accs.length = 0 from by omega, List.drop_zero]
    have h4 : (accs.drop (accs.length + 1 - N) ++ [a]).take (N - (accs.length % N + 1)) =
        (accs.drop (accs.length + 1 - N)).take (N - (accs.length % N + 1)) := by
      rw [List.take_append_eq_append_take,
        show N - (accs.length % N + 1) - (accs.drop (accs.length + 1 - N)).length = 0
          from by rw [List.length_drop]; omega,
        List.take_zero, List.append_nil]
    rw [h2, h3, h4,
      show accs.drop (accs.length + 1 - N) = accs.drop (accs.length - N + 1) from by
        rw [show accs.length + 1 - N = accs.length - N + 1 from by omega],
      ← hrest,
      show N - (accs.length % N + 1) = N - accs.length % N - 1 from by omega,
      List.append_assoc]
    rfl

/-- Characterization of the smoothing buffer after any sequence of pushes
from the freshly constructed filter: the counter counts all pushes; while
filling, the queue is exactly the list of pushed samples; once at least
`N` samples have been pushed, the queue holds the most recent `N` samples,
rotated so that sample `j` sits in ring slot `j % N` (slice form). -/
theorem pushAll_state (p : Params K) (hN : 1 ≤ p.acc_queue_size) (msgs : List (ImuMsg K)) :
    (pushAll msgs (initESKF p)).params = p
    ∧ (pushAll msgs (initESKF p)).acc_queue_count = msgs.length
    ∧ (msgs.length ≤ p.acc_queue_size →
        (pushAll msgs (initESKF p)).acc_queue =
          msgs.map (fun x => x.linear_acceleration))
    ∧ (p.acc_queue_size ≤ msgs.length →
        (pushAll msgs (initESKF p)).acc_queue =
          (msgs.map fun x => x.linear_acceleration).drop
              (msgs.length - msgs.length % p.acc_queue_size) ++
            ((msgs.map fun x => x.linear_acceleration).drop
              (msgs.length - p.acc_queue_size)).take
              (p.acc_queue_size - msgs.length % p.acc_queue_size)) := by
  induction msgs using List.reverseRecOn with
  | nil =>
    refine ⟨rfl, rfl, fun _ => rfl, fun habs => ?_⟩
    simp at habs
    omega
  | append_singleton ms m ih =>
    obtain ⟨hp, hc, hq1, hq4⟩ := ih
    have hfold : pushAll (ms ++ [m]) (initESKF p) =
        update_imu m (pushAll ms (initESKF p)) := by
      simp [pushAll]
    by_cases hlt : ms.length < p.acc_queue_size
    · rw [hfold]
      simp only [update_imu]
      rw [if_pos (by rw [hc, hp]; exact hlt)]
      refine ⟨hp, ?_, ?_, ?_⟩
      · show (pushAll ms (initESKF p)).acc_queue_count + 1 = (ms ++ [m]).length
        rw [hc]
        simp
      · intro _
        show (pushAll ms (initESKF p)).acc_queue ++ [m.linear_acceleration] = _
        rw [hq1 (by omega)]
        simp
      · intro hge2
        have hEq : (ms ++ [m]).length = p.acc_queue_size := by
          simp at hge2 ⊢
          omega
        show (pushAll ms (initESKF p)).acc_queue ++ [m.linear_acceleration] = _
        rw [hq1 (by omega)]
        have hL : ((ms ++ [m]).map fun x => x.linear_acceleration).length =
            p.acc_queue_size := by
          rw [List.length_map]
          exact hEq
        rw [hEq, Nat.mod_self, Nat.sub_zero, Nat.sub_self, List.drop_zero, ← hL,
          List.drop_length, List.take_length, List.nil_append]
        simp
    · push_neg at hlt
      rw [hfold]
      simp only [update_imu]
      rw [if_neg (by rw [hc, hp]; omega)]
      refine ⟨hp, ?_, ?_, ?_⟩
      · show (pushAll ms (initESKF p)).acc_queue_count + 1 = (ms ++ [m]).length
        rw [hc]
        simp
      · intro habs
        simp at habs
        omega
      · intro _
        show (pushAll ms (initESKF p)).acc_queue.set
            ((pushAll ms (initESKF p)).acc_queue_count %
              (pushAll ms (initESKF p)).params.acc_queue_size)
            m.linear_acceleration = _
        rw [hq4 hlt, hc, hp]
        have hstep := ring_set_step (ms.map fun x => x.linear_acceleration)
          m.linear_acceleration p.acc_queue_size hN
          (by rw [List.length_map]; exact hlt)
        rw [List.length_map] at hstep
        rw [hstep]
        simp [List.length_append]

/-- C4 amended: for every push sequence into a smoothing buffer of capacity
`N ≥ 1`, while the total number of pushes `k` satisfies `k ≤ N` the
acceleration handed to propagation is the latest raw sample (not a partial
mean); once `k > N` it is the arithmetic mean of the `N` most recent
samples. -/
theorem C4_amended (p : Params K) (hN : 1 ≤ p.acc_queue_size)
    (ms : List (ImuMsg K)) (m : ImuMsg K) :
    (ms.length + 1 ≤ p.acc_queue_size →
      (pushAll (ms ++ [m]) (initESKF p)).imu_acceleration = m.linear_acceleration)
    ∧ (p.acc_queue_size < ms.length + 1 →
      (pushAll (ms ++ [m]) (initESKF p)).imu_acceleration =
        vecAvg p.acc_queue_size
          (((ms ++ [m]).map fun x => x.linear_acceleration).drop
            (ms.length + 1 - p.acc_queue_size))) := by
  obtain ⟨hp, hc, hq1, hq4⟩ := pushAll_state p hN ms
  have hfold : pushAll (ms ++ [m]) (initESKF p) =
      update_imu m (pushAll ms (initESKF p)) := by
    simp [pushAll]
  constructor
  · intro hle
    rw [hfold]
    simp only [update_imu]
    rw [if_pos (by rw [hc, hp]; omega)]
  · intro hgt
    have hlt : p.acc_queue_size ≤ ms.length := by omega
    rw [hfold]
    simp only [update_imu]
    rw [if_neg (by rw [hc, hp]; omega)]
    show (⟨_, _, _⟩ : Vec3 K) = _
    rw [hp, hc, hq4 hlt]
    have hstep := ring_set_step (ms.map fun x => x.linear_acceleration)
      m.linear_acceleration p.acc_queue_size hN
      (by rw [List.length_map]; exact hlt)
    rw [List.length_map] at hstep
    rw [hstep]
    have hlen : List.length (((ms.map fun x => x.linear_acceleration) ++ [m.linear_acceleration]).drop
          (ms.length + 1 - (ms.length + 1) % p.acc_queue_size) ++
        (((ms.map fun x => x.linear_acceleration) ++ [m.linear_acceleration]).drop
          (ms.length + 1 - p.acc_queue_size)).take
          (p.acc_queue_size - (ms.length + 1) % p.acc_queue_size))
        = p.acc_queue_size := by
      have hm : (ms.length + 1) % p.acc_queue_size < p.acc_queue_size :=
        Nat.mod_lt _ (by omega)
      simp [List.length_append, List.length_drop, List.length_take, List.length_map]
      omega
    have hlast : ((ms.map fun x => x.linear_acceleration) ++ [m.linear_acceleration]).drop
          (ms.length + 1 - p.acc_queue_size) =
        (((ms.map fun x => x.linear_acceleration) ++ [m.linear_acceleration]).drop
          (ms.length + 1 - p.acc_queue_size)).take
          (p.acc_queue_size - (ms.length + 1) % p.acc_queue_size) ++
        ((ms.map fun x => x.linear_acceleration) ++ [m.linear_acceleration]).drop
          (ms.length + 1 - (ms.length + 1) % p.acc_queue_size) := by
      conv_lhs => rw [← List.take_append_drop
        (p.acc_queue_size - (ms.length + 1) % p.acc_queue_size)
        (((ms.map fun x => x.linear_acceleration) ++ [m.linear_acceleration]).drop
          (ms.length + 1 - p.acc_queue_size))]
      congr 1
      rw [List.drop_drop]
      congr 1
      have hm : (ms.length + 1) % p.acc_queue_size < p.acc_queue_size :=
        Nat.mod_lt _ (by omega)
      omega
    have hperm : (((ms.map fun x => x.linear_acceleration) ++ [m.linear_acceleration]).drop
          (ms.length + 1 - (ms.length + 1) % p.acc_queue_size) ++
        (((ms.map fun x => x.linear_acceleration) ++ [m.linear_acceleration]).drop
          (ms.length + 1 - p.acc_queue_size)).take
          (p.acc_queue_size - (ms.length + 1) % p.acc_queue_size)).Perm
        (((ms.map fun x => x.linear_acceleration) ++ [m.linear_acceleration]).drop
          (ms.length + 1 - p.acc_queue_size)) := by
      refine List.perm_append_comm.trans ?_
      rw [← hlast]
    have hcomp : ∀ g : Vec3 K → K,
        ((List.range p.acc_queue_size).map fun i =>
          g ((((ms.map fun x => x.linear_acceleration) ++ [m.linear_acceleration]).drop
            (ms.length + 1 - (ms.length + 1) % p.acc_queue_size) ++
          (((ms.map fun x => x.linear_acceleration) ++ [m.linear_acceleration]).drop
            (ms.length + 1 - p.acc_queue_size)).take
            (p.acc_queue_size - (ms.length + 1) % p.acc_queue_size)).getD i 0) /
            (p.acc_queue_size : K)).sum =
        (((((ms.map fun x => x.linear_acceleration) ++ [m.linear_acceleration]).drop
          (ms.length + 1 - p.acc_queue_size)).map g).sum) / (p.acc_queue_size : K) := by
      intro g
      rw [getD_range_mapn _ (0 : Vec3 K) (fun v => g v / (p.acc_queue_size : K))
        p.acc_queue_size hlen, sum_map_div]
      congr 1
      exact (hperm.map g).sum_eq
    show Vec3.mk _ _ _ = Vec3.mk _ _ _
    rw [show ((ms ++ [m]).map fun x => x.linear_acceleration) =
      (ms.map fun x => x.linear_acceleration) ++ [m.linear_acceleration] from by simp]
    have hx := hcomp Vec3.x
    have hy := hcomp Vec3.y
    have hz := hcomp Vec3.z
    rw [hx, hy, hz]
/-- Witness for the amended C4: with queue capacity 2 and three pushed
samples, the acceleration handed on is the mean of the last two samples. -/
theorem C4_amended_witness :
    1 ≤ paramsQ2.acc_queue_size ∧ paramsQ2.acc_queue_size < [msgA, msgB].length + 1 ∧
    (pushAll ([msgA, msgB] ++ [msgA]) (initESKF paramsQ2)).imu_acceleration =
      vecAvg paramsQ2.acc_queue_size
        ((([msgA, msgB] ++ [msgA]).map fun x => x.linear_acceleration).drop
          ([msgA, msgB].length + 1 - paramsQ2.acc_queue_size)) :=
  ⟨by decide, by decide,
    (C4_amended paramsQ2 (by decide) [msgA, msgB] msgA).2 (by decide)⟩
@[simp] theorem Mat15.add_b00 (a b : Mat15 K) : (a + b).b00 = a.b00 + b.b00 := rfl
@[simp] theorem Mat15.add_b01 (a b : Mat15 K) : (a + b).b01 = a.b01 + b.b01 := rfl
@[simp] theorem Mat15.add_b02 (a b : Mat15 K) : (a + b).b02 = a.b02 + b.b02 := rfl
@[simp] theorem Mat15.add_b03 (a b : Mat15 K) : (a + b).b03 = a.b03 + b.b03 := rfl
@[simp] theorem Mat15.add_b04 (a b : Mat15 K) : (a + b).b04 = a.b04 + b.b04 := rfl
@[simp] theorem Mat15.add_b10 (a b : Mat15 K) : (a + b).b10 = a.b10 + b.b10 := rfl
@[simp] theorem Mat15.add_b11 (a b : Mat15 K) : (a + b).b11 = a.b11 + b.b11 := rfl
@[simp] theorem Mat15.add_b12 (a b : Mat15 K) : (a + b).b12 = a.b12 + b.b12 := rfl
@[simp] theorem Mat15.add_b13 (a b : Mat15 K) : (a + b).b13 = a.b13 + b.b13 := rfl
@[simp] theorem Mat15.add_b14 (a b : Mat15 K) : (a + b).b14 = a.b14 + b.b14 := rfl
@[simp] theorem Mat15.add_b20 (a b : Mat15 K) : (a + b).b20 = a.b20 + b.b20 := rfl
@[simp] theorem Mat15.add_b21 (a b : Mat15 K) : (a + b).b21 = a.b21 + b.b21 := rfl
@[simp] theorem Mat15.add_b22 (a b : Mat15 K) : (a + b).b22 = a.b22 + b.b22 := rfl
@[simp] theorem Mat15.add_b23 (a b : Mat15 K) : (a + b).b23 = a.b23 + b.b23 := rfl
@[simp] theorem Mat15.add_b24 (a b : Mat15 K) : (a + b).b24 = a.b24 + b.b24 := rfl
@[simp] theorem Mat15.add_b30 (a b : Mat15 K) : (a + b).b30 = a.b30 + b.b30 := rfl
@[simp] theorem Mat15.add_b31 (a b : Mat15 K) : (a + b).b31 = a.b31 + b.b31 := rfl
@[simp] theorem Mat15.add_b32 (a b : Mat15 K) : (a + b).b32 = a.b32 + b.b32 := rfl
@[simp] theorem Mat15.add_b33 (a b : Mat15 K) : (a + b).b33 = a.b33 + b.b33 := rfl
@[simp] theorem Mat15.add_b34 (a b : Mat15 K) : (a + b).b34 = a.b34 + b.b34 := rfl
@[simp] theorem Mat15.add_b40 (a b : Mat15 K) : (a + b).b40 = a.b40 + b.b40 := rfl
@[simp] theorem Mat15.add_b41 (a b : Mat15 K) : (a + b).b41 = a.b41 + b.b41 := rfl
@[simp] theorem Mat15.add_b42 (a b : Mat15 K) : (a + b).b42 = a.b42 + b.b42 := rfl
@[simp] theorem Mat15.add_b43 (a b : Mat15 K) : (a + b).b43 = a.b43 + b.b43 := rfl
@[simp] theorem Mat15.add_b44 (a b : Mat15 K) : (a + b).b44 = a.b44 + b.b44 := rfl

set_option maxHeartbeats 4000000 in
/-- Block (0,0) of the one-step recurrence of the C1 covariance
closed form. -/
theorem c1rec00 [CharZero K] (az x : K) :
    sigb00 az (x + 1) =
      (mul15 (mul15 (fxC1 az) (sigK az x)) (transpose15 (fxC1 az)) +
        mulABt1512 (mul1512x12 fnC1 qC1) fnC1).b00 := by
  simp only [sigK, sigb00, sigb01, sigb02, sigb03, sigb04, sigb10, sigb11, sigb12, sigb13, sigb14, sigb20, sigb21, sigb22, sigb23, sigb24, sigb30, sigb31, sigb32, sigb33, sigb34, sigb40, sigb41, sigb42, sigb43, sigb44, fxC1, fnC1, qC1, mul15, transpose15, mulABt1512,
    mul1512x12, Mat15.add_b00, Mat15.add_b01, Mat15.add_b02, Mat15.add_b03, Mat15.add_b04, Mat15.add_b10, Mat15.add_b11, Mat15.add_b12, Mat15.add_b13, Mat15.add_b14, Mat15.add_b20, Mat15.add_b21, Mat15.add_b22, Mat15.add_b23, Mat15.add_b24, Mat15.add_b30, Mat15.add_b31, Mat15.add_b32, Mat15.add_b33, Mat15.add_b34, Mat15.add_b40, Mat15.add_b41, Mat15.add_b42, Mat15.add_b43, Mat15.add_b44, Mat3.mk_mul_mk, Mat3.mk_add_mk, Mat3.transpose_mk,
    Mat3.mk.injEq, zero_mul, mul_zero, add_zero, zero_add, one_mul, mul_one]
  all_goals refine ⟨?_, ?_, ?_, ?_, ?_, ?_, ?_, ?_, ?_⟩ <;> ring

set_option maxHeartbeats 4000000 in
/-- Block (0,1) of the one-step recurrence of the C1 covariance
closed form. -/
theorem c1rec01 [CharZero K] (az x : K) :
    sigb01 az (x + 1) =
      (mul15 (mul15 (fxC1 az) (sigK az x)) (transpose15 (fxC1 az)) +
        mulABt1512 (mul1512x12 fnC1 qC1) fnC1).b01 := by
  simp only [sigK, sigb00, sigb01, sigb02, sigb03, sigb04, sigb10, sigb11, sigb12, sigb13, sigb14, sigb20, sigb21, sigb22, sigb23, sigb24, sigb30, sigb31, sigb32, sigb33, sigb34, sigb40, sigb41, sigb42, sigb43, sigb44, fxC1, fnC1, qC1, mul15, transpose15, mulABt1512,
    mul1512x12, Mat15.add_b00, Mat15.add_b01, Mat15.add_b02, Mat15.add_b03, Mat15.add_b04, Mat15.add_b10, Mat15.add_b11, Mat15.add_b12, Mat15.add_b13, Mat15.add_b14, Mat15.add_b20, Mat15.add_b21, Mat15.add_b22, Mat15.add_b23, Mat15.add_b24, Mat15.add_b30, Mat15.add_b31, Mat15.add_b32, Mat15.add_b33, Mat15.add_b34, Mat15.add_b40, Mat15.add_b41, Mat15.add_b42, Mat15.add_b43, Mat15.add_b44, Mat3.mk_mul_mk, Mat3.mk_add_mk, Mat3.transpose_mk,
    Mat3.mk.injEq, zero_mul, mul_zero, add_zero, zero_add, one_mul, mul_one]
  all_goals refine ⟨?_, ?_, ?_, ?_, ?_, ?_, ?_, ?_, ?_⟩ <;> ring

set_option maxHeartbeats 4000000 in
/-- Block (0,2) of the one-step recurrence of the C1 covariance
closed form. -/
theorem c1rec02 [CharZero K] (az x : K) :
    sigb02 az (x + 1) =
      (mul15 (mul15 (fxC1 az) (sigK az x)) (transpose15 (fxC1 az)) +
        mulABt1512 (mul1512x12 fnC1 qC1) fnC1).b02 := by
  simp only [sigK, sigb00, sigb01, sigb02, sigb03, sigb04, sigb10, sigb11, sigb12, sigb13, sigb14, sigb20, sigb21, sigb22, sigb23, sigb24, sigb30, sigb31, sigb32, sigb33, sigb34, sigb40, sigb41, sigb42, sigb43, sigb44, fxC1, fnC1, qC1, mul15, transpose15, mulABt1512,
    mul1512x12, Mat15.add_b00, Mat15.add_b01, Mat15.add_b02, Mat15.add_b03, Mat15.add_b04, Mat15.add_b10, Mat15.add_b11, Mat15.add_b12, Mat15.add_b13, Mat15.add_b14, Mat15.add_b20, Mat15.add_b21, Mat15.add_b22, Mat15.add_b23, Mat15.add_b24, Mat15.add_b30, Mat15.add_b31, Mat15.add_b32, Mat15.add_b33, Mat15.add_b34, Mat15.add_b40, Mat15.add_b41, Mat15.add_b42, Mat15.add_b43, Mat15.add_b44, Mat3.mk_mul_mk, Mat3.mk_add_mk, Mat3.transpose_mk,
    Mat3.mk.injEq, zero_mul, mul_zero, add_zero, zero_add, one_mul, mul_one]
  all_goals refine ⟨?_, ?_, ?_, ?_, ?_, ?_, ?_, ?_, ?_⟩ <;> ring

set_option maxHeartbeats 4000000 in
/-- Block (0,3) of the one-step recurrence of the C1 covariance
closed form. -/
theorem c1rec03 [CharZero K] (az x : K) :
    sigb03 az (x + 1) =
      (mul15 (mul15 (fxC1 az) (sigK az x)) (transpose15 (fxC1 az)) +
        mulABt1512 (mul1512x12 fnC1 qC1) fnC1).b03 := by
  simp only [sigK, sigb00, sigb01, sigb02, sigb03, sigb04, sigb10, sigb11, sigb12, sigb13, sigb14, sigb20, sigb21, sigb22, sigb23, sigb24, sigb30, sigb31, sigb32, sigb33, sigb34, sigb40, sigb41, sigb42, sigb43, sigb44, fxC1, fnC1, qC1, mul15, transpose15, mulABt1512,
    mul1512x12, Mat15.add_b00, Mat15.add_b01, Mat15.add_b02, Mat15.add_b03, Mat15.add_b04, Mat15.add_b10, Mat15.add_b11, Mat15.add_b12, Mat15.add_b13, Mat15.add_b14, Mat15.add_b20, Mat15.add_b21, Mat15.add_b22, Mat15.add_b23, Mat15.add_b24, Mat15.add_b30, Mat15.add_b31, Mat15.add_b32, Mat15.add_b33, Mat15.add_b34, Mat15.add_b40, Mat15.add_b41, Mat15.add_b42, Mat15.add_b43, Mat15.add_b44, Mat3.mk_mul_mk, Mat3.mk_add_mk, Mat3.transpose_mk,
    Mat3.mk.injEq, zero_mul, mul_zero, add_zero, zero_add, one_mul, mul_one]
  all_goals refine ⟨?_, ?_, ?_, ?_, ?_, ?_, ?_, ?_, ?_⟩ <;> ring

set_option maxHeartbeats 4000000 in
/-- Block (0,4) of the one-step recurrence of the C1 covariance
closed form. -/
theorem c1rec04 [CharZero K] (az x : K) :
    sigb04 az (x + 1) =
      (mul15 (mul15 (fxC1 az) (sigK az x)) (transpose15 (fxC1 az)) +
        mulABt1512 (mul1512x12 fnC1 qC1) fnC1).b04 := by
  simp only [sigK, sigb00, sigb01, sigb02, sigb03, sigb04, sigb10, sigb11, sigb12, sigb13, sigb14, sigb20, sigb21, sigb22, sigb23, sigb24, sigb30, sigb31, sigb32, sigb33, sigb34, sigb40, sigb41, sigb42, sigb43, sigb44, fxC1, fnC1, qC1, mul15, transpose15, mulABt1512,
    mul1512x12, Mat15.add_b00, Mat15.add_b01, Mat15.add_b02, Mat15.add_b03, Mat15.add_b04, Mat15.add_b10, Mat15.add_b11, Mat15.add_b12, Mat15.add_b13, Mat15.add_b14, Mat15.add_b20, Mat15.add_b21, Mat15.add_b22, Mat15.add_b23, Mat15.add_b24, Mat15.add_b30, Mat15.add_b31, Mat15.add_b32, Mat15.add_b33, Mat15.add_b34, Mat15.add_b40, Mat15.add_b41, Mat15.add_b42, Mat15.add_b43, Mat15.add_b44, Mat3.mk_mul_mk, Mat3.mk_add_mk, Mat3.transpose_mk,
    Mat3.mk.injEq, zero_mul, mul_zero, add_zero, zero_add, one_mul, mul_one]
  all_goals refine ⟨?_, ?_, ?_, ?_, ?_, ?_, ?_, ?_, ?_⟩ <;> ring

set_option maxHeartbeats 4000000 in
/-- Block (1,0) of the one-step recurrence of the C1 covariance
closed form. -/
theorem c1rec10 [CharZero K] (az x : K) :
    sigb10 az (x + 1) =
      (mul15 (mul15 (fxC1 az) (sigK az x)) (transpose15 (fxC1 az)) +
        mulABt1512 (mul1512x12 fnC1 qC1) fnC1).b10 := by
  simp only [sigK, sigb00, sigb01, sigb02, sigb03, sigb04, sigb10, sigb11, sigb12, sigb13, sigb14, sigb20, sigb21, sigb22, sigb23, sigb24, sigb30, sigb31, sigb32, sigb33, sigb34, sigb40, sigb41, sigb42, sigb43, sigb44, fxC1, fnC1, qC1, mul15, transpose15, mulABt1512,
    mul1512x12, Mat15.add_b00, Mat15.add_b01, Mat15.add_b02, Mat15.add_b03, Mat15.add_b04, Mat15.add_b10, Mat15.add_b11, Mat15.add_b12, Mat15.add_b13, Mat15.add_b14, Mat15.add_b20, Mat15.add_b21, Mat15.add_b22, Mat15.add_b23, Mat15.add_b24, Mat15.add_b30, Mat15.add_b31, Mat15.add_b32, Mat15.add_b33, Mat15.add_b34, Mat15.add_b40, Mat15.add_b41, Mat15.add_b42, Mat15.add_b43, Mat15.add_b44, Mat3.mk_mul_mk, Mat3.mk_add_mk, Mat3.transpose_mk,
    Mat3.mk.injEq, zero_mul, mul_zero, add_zero, zero_add, one_mul, mul_one]
  all_goals refine ⟨?_, ?_, ?_, ?_, ?_, ?_, ?_, ?_, ?_⟩ <;> ring

set_option maxHeartbeats 4000000 in
/-- Block (1,1) of the one-step recurrence of the C1 covariance
closed form. -/
theorem c1rec11 [CharZero K] (az x : K) :
    sigb11 az (x + 1) =
      (mul15 (mul15 (fxC1 az) (sigK az x)) (transpose15 (fxC1 az)) +
        mulABt1512 (mul1512x12 fnC1 qC1) fnC1).b11 := by
  simp only [sigK, sigb00, sigb01, sigb02, sigb03, sigb04, sigb10, sigb11, sigb12, sigb13, sigb14, sigb20, sigb21, sigb22, sigb23, sigb24, sigb30, sigb31, sigb32, sigb33, sigb34, sigb40, sigb41, sigb42, sigb43, sigb44, fxC1, fnC1, qC1, mul15, transpose15, mulABt1512,
    mul1512x12, Mat15.add_b00, Mat15.add_b01, Mat15.add_b02, Mat15.add_b03, Mat15.add_b04, Mat15.add_b10, Mat15.add_b11, Mat15.add_b12, Mat15.add_b13, Mat15.add_b14, Mat15.add_b20, Mat15.add_b21, Mat15.add_b22, Mat15.add_b23, Mat15.add_b24, Mat15.add_b30, Mat15.add_b31, Mat15.add_b32, Mat15.add_b33, Mat15.add_b34, Mat15.add_b40, Mat15.add_b41, Mat15.add_b42, Mat15.add_b43, Mat15.add_b44, Mat3.mk_mul_mk, Mat3.mk_add_mk, Mat3.transpose_mk,
    Mat3.mk.injEq, zero_mul, mul_zero, add_zero, zero_add, one_mul, mul_one]
  all_goals refine ⟨?_, ?_, ?_, ?_, ?_, ?_, ?_, ?_, ?_⟩ <;> ring

set_option maxHeartbeats 4000000 in
/-- Block (1,2) of the one-step recurrence of the C1 covariance
closed form. -/
theorem c1rec12 [CharZero K] (az x : K) :
    sigb12 az (x + 1) =
      (mul15 (mul15 (fxC1 az) (sigK az x)) (transpose15 (fxC1 az)) +
        mulABt1512 (mul1512x12 fnC1 qC1) fnC1).b12 := by
  simp only [sigK, sigb00, sigb01, sigb02, sigb03, sigb04, sigb10, sigb11, sigb12, sigb13, sigb14, sigb20, sigb21, sigb22, sigb23, sigb24, sigb30, sigb31, sigb32, sigb33, sigb34, sigb40, sigb41, sigb42, sigb43, sigb44, fxC1, fnC1, qC1, mul15, transpose15, mulABt1512,
    mul1512x12, Mat15.add_b00, Mat15.add_b01, Mat15.add_b02, Mat15.add_b03, Mat15.add_b04, Mat15.add_b10, Mat15.add_b11, Mat15.add_b12, Mat15.add_b13, Mat15.add_b14, Mat15.add_b20, Mat15.add_b21, Mat15.add_b22, Mat15.add_b23, Mat15.add_b24, Mat15.add_b30, Mat15.add_b31, Mat15.add_b32, Mat15.add_b33, Mat15.add_b34, Mat15.add_b40, Mat15.add_b41, Mat15.add_b42, Mat15.add_b43, Mat15.add_b44, Mat3.mk_mul_mk, Mat3.mk_add_mk, Mat3.transpose_mk,
    Mat3.mk.injEq, zero_mul, mul_zero, add_zero, zero_add, one_mul, mul_one]
  all_goals refine ⟨?_, ?_, ?_, ?_, ?_, ?_, ?_, ?_, ?_⟩ <;> ring

set_option maxHeartbeats 4000000 in
/-- Block (1,3) of the one-step recurrence of the C1 covariance
closed form. -/
theorem c1rec13 [CharZero K] (az x : K) :
    sigb13 az (x + 1) =
      (mul15 (mul15 (fxC1 az) (sigK az x)) (transpose15 (fxC1 az)) +
        mulABt1512 (mul1512x12 fnC1 qC1) fnC1).b13 := by
  simp only [sigK, sigb00, sigb01, sigb02, sigb03, sigb04, sigb10, sigb11, sigb12, sigb13, sigb14, sigb20, sigb21, sigb22, sigb23, sigb24, sigb30, sigb31, sigb32, sigb33, sigb34, sigb40, sigb41, sigb42, sigb43, sigb44, fxC1, fnC1, qC1, mul15, transpose15, mulABt1512,
    mul1512x12, Mat15.add_b00, Mat15.add_b01, Mat15.add_b02, Mat15.add_b03, Mat15.add_b04, Mat15.add_b10, Mat15.add_b11, Mat15.add_b12, Mat15.add_b13, Mat15.add_b14, Mat15.add_b20, Mat15.add_b21, Mat15.add_b22, Mat15.add_b23, Mat15.add_b24, Mat15.add_b30, Mat15.add_b31, Mat15.add_b32, Mat15.add_b33, Mat15.add_b34, Mat15.add_b40, Mat15.add_b41, Mat15.add_b42, Mat15.add_b43, Mat15.add_b44, Mat3.mk_mul_mk, Mat3.mk_add_mk, Mat3.transpose_mk,
    Mat3.mk.injEq, zero_mul, mul_zero, add_zero, zero_add, one_mul, mul_one]
  all_goals refine ⟨?_, ?_, ?_, ?_, ?_, ?_, ?_, ?_, ?_⟩ <;> ring

set_option maxHeartbeats 4000000 in
/-- Block (1,4) of the one-step recurrence of the C1 covariance
closed form. -/
theorem c1rec14 [CharZero K] (az x : K) :
    sigb14 az (x + 1) =
      (mul15 (mul15 (fxC1 az) (sigK az x)) (transpose15 (fxC1 az)) +
        mulABt1512 (mul1512x12 fnC1 qC1) fnC1).b14 := by
  simp only [sigK, sigb00, sigb01, sigb02, sigb03, sigb04, sigb10, sigb11, sigb12, sigb13, sigb14, sigb20, sigb21, sigb22, sigb23, sigb24, sigb30, sigb31, sigb32, sigb33, sigb34, sigb40, sigb41, sigb42, sigb43, sigb44, fxC1, fnC1, qC1, mul15, transpose15, mulABt1512,
    mul1512x12, Mat15.add_b00, Mat15.add_b01, Mat15.add_b02, Mat15.add_b03, Mat15.add_b04, Mat15.add_b10, Mat15.add_b11, Mat15.add_b12, Mat15.add_b13, Mat15.add_b14, Mat15.add_b20, Mat15.add_b21, Mat15.add_b22, Mat15.add_b23, Mat15.add_b24, Mat15.add_b30, Mat15.add_b31, Mat15.add_b32, Mat15.add_b33, Mat15.add_b34, Mat15.add_b40, Mat15.add_b41, Mat15.add_b42, Mat15.add_b43, Mat15.add_b44, Mat3.mk_mul_mk, Mat3.mk_add_mk, Mat3.transpose_mk,
    Mat3.mk.injEq, zero_mul, mul_zero, add_zero, zero_add, one_mul, mul_one]
  all_goals refine ⟨?_, ?_, ?_, ?_, ?_, ?_, ?_, ?_, ?_⟩ <;> ring

set_option maxHeartbeats 4000000 in
/-- Block (2,0) of the one-step recurrence of the C1 covariance
closed form. -/
theorem c1rec20 [CharZero K] (az x : K) :
    sigb20 az (x + 1) =
      (mul15 (mul15 (fxC1 az) (sigK az x)) (transpose15 (fxC1 az)) +
        mulABt1512 (mul1512x12 fnC1 qC1) fnC1).b20 := by
  simp only [sigK, sigb00, sigb01, sigb02, sigb03, sigb04, sigb10, sigb11, sigb12, sigb13, sigb14, sigb20, sigb21, sigb22, sigb23, sigb24, sigb30, sigb31, sigb32, sigb33, sigb34, sigb40, sigb41, sigb42, sigb43, sigb44, fxC1, fnC1, qC1, mul15, transpose15, mulABt1512,
    mul1512x12, Mat15.add_b00, Mat15.add_b01, Mat15.add_b02, Mat15.add_b03, Mat15.add_b04, Mat15.add_b10, Mat15.add_b11, Mat15.add_b12, Mat15.add_b13, Mat15.add_b14, Mat15.add_b20, Mat15.add_b21, Mat15.add_b22, Mat15.add_b23, Mat15.add_b24, Mat15.add_b30, Mat15.add_b31, Mat15.add_b32, Mat15.add_b33, Mat15.add_b34, Mat15.add_b40, Mat15.add_b41, Mat15.add_b42, Mat15.add_b43, Mat15.add_b44, Mat3.mk_mul_mk, Mat3.mk_add_mk, Mat3.transpose_mk,
    Mat3.mk.injEq, zero_mul, mul_zero, add_zero, zero_add, one_mul, mul_one]
  all_goals refine ⟨?_, ?_, ?_, ?_, ?_, ?_, ?_, ?_, ?_⟩ <;> ring

set_option maxHeartbeats 4000000 in
/-- Block (2,1) of the one-step recurrence of the C1 covariance
closed form. -/
theorem c1rec21 [CharZero K] (az x : K) :
    sigb21 az (x + 1) =
      (mul15 (mul15 (fxC1 az) (sigK az x)) (transpose15 (fxC1 az)) +
        mulABt1512 (mul1512x12 fnC1 qC1) fnC1).b21 := by
  simp only [sigK, sigb00, sigb01, sigb02, sigb03, sigb04, sigb10, sigb11, sigb12, sigb13, sigb14, sigb20, sigb21, sigb22, sigb23, sigb24, sigb30, sigb31, sigb32, sigb33, sigb34, sigb40, sigb41, sigb42, sigb43, sigb44, fxC1, fnC1, qC1, mul15, transpose15, mulABt1512,
    mul1512x12, Mat15.add_b00, Mat15.add_b01, Mat15.add_b02, Mat15.add_b03, Mat15.add_b04, Mat15.add_b10, Mat15.add_b11, Mat15.add_b12, Mat15.add_b13, Mat15.add_b14, Mat15.add_b20, Mat15.add_b21, Mat15.add_b22, Mat15.add_b23, Mat15.add_b24, Mat15.add_b30, Mat15.add_b31, Mat15.add_b32, Mat15.add_b33, Mat15.add_b34, Mat15.add_b40, Mat15.add_b41, Mat15.add_b42, Mat15.add_b43, Mat15.add_b44, Mat3.mk_mul_mk, Mat3.mk_add_mk, Mat3.transpose_mk,
    Mat3.mk.injEq, zero_mul, mul_zero, add_zero, zero_add, one_mul, mul_one]
  all_goals refine ⟨?_, ?_, ?_, ?_, ?_, ?_, ?_, ?_, ?_⟩ <;> ring

set_option maxHeartbeats 4000000 in
/-- Block (2,2) of the one-step recurrence of the C1 covariance
closed form. -/
theorem c1rec22 [CharZero K] (az x : K) :
    sigb22 az (x + 1) =
      (mul15 (mul15 (fxC1 az) (sigK az x)) (transpose15 (fxC1 az)) +
        mulABt1512 (mul1512x12 fnC1 qC1) fnC1).b22 := by
  simp only [sigK, sigb00, sigb01, sigb02, sigb03, sigb04, sigb10, sigb11, sigb12, sigb13, sigb14, sigb20, sigb21, sigb22, sigb23, sigb24, sigb30, sigb31, sigb32, sigb33, sigb34, sigb40, sigb41, sigb42, sigb43, sigb44, fxC1, fnC1, qC1, mul15, transpose15, mulABt1512,
    mul1512x12, Mat15.add_b00, Mat15.add_b01, Mat15.add_b02, Mat15.add_b03, Mat15.add_b04, Mat15.add_b10, Mat15.add_b11, Mat15.add_b12, Mat15.add_b13, Mat15.add_b14, Mat15.add_b20, Mat15.add_b21, Mat15.add_b22, Mat15.add_b23, Mat15.add_b24, Mat15.add_b30, Mat15.add_b31, Mat15.add_b32, Mat15.add_b33, Mat15.add_b34, Mat15.add_b40, Mat15.add_b41, Mat15.add_b42, Mat15.add_b43, Mat15.add_b44, Mat3.mk_mul_mk, Mat3.mk_add_mk, Mat3.transpose_mk,
    Mat3.mk.injEq, zero_mul, mul_zero, add_zero, zero_add, one_mul, mul_one]
  all_goals refine ⟨?_, ?_, ?_, ?_, ?_, ?_, ?_, ?_, ?_⟩ <;> ring

set_option maxHeartbeats 4000000 in
/-- Block (2,3) of the one-step recurrence of the C1 covariance
closed form. -/
theorem c1rec23 [CharZero K] (az x : K) :
    sigb23 az (x + 1) =
      (mul15 (mul15 (fxC1 az) (sigK az x)) (transpose15 (fxC1 az)) +
        mulABt1512 (mul1512x12 fnC1 qC1) fnC1).b23 := by
  simp only [sigK, sigb00, sigb01, sigb02, sigb03, sigb04, sigb10, sigb11, sigb12, sigb13, sigb14, sigb20, sigb21, sigb22, sigb23, sigb24, sigb30, sigb31, sigb32, sigb33, sigb34, sigb40, sigb41, sigb42, sigb43, sigb44, fxC1, fnC1, qC1, mul15, transpose15, mulABt1512,
    mul1512x12, Mat15.add_b00, Mat15.add_b01, Mat15.add_b02, Mat15.add_b03, Mat15.add_b04, Mat15.add_b10, Mat15.add_b11, Mat15.add_b12, Mat15.add_b13, Mat15.add_b14, Mat15.add_b20, Mat15.add_b21, Mat15.add_b22, Mat15.add_b23, Mat15.add_b24, Mat15.add_b30, Mat15.add_b31, Mat15.add_b32, Mat15.add_b33, Mat15.add_b34, Mat15.add_b40, Mat15.add_b41, Mat15.add_b42, Mat15.add_b43, Mat15.add_b44, Mat3.mk_mul_mk, Mat3.mk_add_mk, Mat3.transpose_mk,
    Mat3.mk.injEq, zero_mul, mul_zero, add_zero, zero_add, one_mul, mul_one]
  all_goals refine ⟨?_, ?_, ?_, ?_, ?_, ?_, ?_, ?_, ?_⟩ <;> ring

set_option maxHeartbeats 4000000 in
/-- Block (2,4) of the one-step recurrence of the C1 covariance
closed form. -/
theorem c1rec24 [CharZero K] (az x : K) :
    sigb24 az (x + 1) =
      (mul15 (mul15 (fxC1 az) (sigK az x)) (transpose15 (fxC1 az)) +
        mulABt1512 (mul1512x12 fnC1 qC1) fnC1).b24 := by
  simp only [sigK, sigb00, sigb01, sigb02, sigb03, sigb04, sigb10, sigb11, sigb12, sigb13, sigb14, sigb20, sigb21, sigb22, sigb23, sigb24, sigb30, sigb31, sigb32, sigb33, sigb34, sigb40, sigb41, sigb42, sigb43, sigb44, fxC1, fnC1, qC1, mul15, transpose15, mulABt1512,
    mul1512x12, Mat15.add_b00, Mat15.add_b01, Mat15.add_b02, Mat15.add_b03, Mat15.add_b04, Mat15.add_b10, Mat15.add_b11, Mat15.add_b12, Mat15.add_b13, Mat15.add_b14, Mat15.add_b20, Mat15.add_b21, Mat15.add_b22, Mat15.add_b23, Mat15.add_b24, Mat15.add_b30, Mat15.add_b31, Mat15.add_b32, Mat15.add_b33, Mat15.add_b34, Mat15.add_b40, Mat15.add_b41, Mat15.add_b42, Mat15.add_b43, Mat15.add_b44, Mat3.mk_mul_mk, Mat3.mk_add_mk, Mat3.transpose_mk,
    Mat3.mk.injEq, zero_mul, mul_zero, add_zero, zero_add, one_mul, mul_one]
  all_goals refine ⟨?_, ?_, ?_, ?_, ?_, ?_, ?_, ?_, ?_⟩ <;> ring

set_option maxHeartbeats 4000000 in
/-- Block (3,0) of the one-step recurrence of the C1 covariance
closed form. -/
theorem c1rec30 [CharZero K] (az x : K) :
    sigb30 az (x + 1) =
      (mul15 (mul15 (fxC1 az) (sigK az x)) (transpose15 (fxC1 az)) +
        mulABt1512 (mul1512x12 fnC1 qC1) fnC1).b30 := by
  simp only [sigK, sigb00, sigb01, sigb02, sigb03, sigb04, sigb10, sigb11, sigb12, sigb13, sigb14, sigb20, sigb21, sigb22, sigb23, sigb24, sigb30, sigb31, sigb32, sigb33, sigb34, sigb40, sigb41, sigb42, sigb43, sigb44, fxC1, fnC1, qC1, mul15, transpose15, mulABt1512,
    mul1512x12, Mat15.add_b00, Mat15.add_b01, Mat15.add_b02, Mat15.add_b03, Mat15.add_b04, Mat15.add_b10, Mat15.add_b11, Mat15.add_b12, Mat15.add_b13, Mat15.add_b14, Mat15.add_b20, Mat15.add_b21, Mat15.add_b22, Mat15.add_b23, Mat15.add_b24, Mat15.add_b30, Mat15.add_b31, Mat15.add_b32, Mat15.add_b33, Mat15.add_b34, Mat15.add_b40, Mat15.add_b41, Mat15.add_b42, Mat15.add_b43, Mat15.add_b44, Mat3.mk_mul_mk, Mat3.mk_add_mk, Mat3.transpose_mk,
    Mat3.mk.injEq, zero_mul, mul_zero, add_zero, zero_add, one_mul, mul_one]
  all_goals refine ⟨?_, ?_, ?_, ?_, ?_, ?_, ?_, ?_, ?_⟩ <;> ring

set_option maxHeartbeats 4000000 in
/-- Block (3,1) of the one-step recurrence of the C1 covariance
closed form. -/
theorem c1rec31 [CharZero K] (az x : K) :
    sigb31 az (x + 1) =
      (mul15 (mul15 (fxC1 az) (sigK az x)) (transpose15 (fxC1 az)) +
        mulABt1512 (mul1512x12 fnC1 qC1) fnC1).b31 := by
  simp only [sigK, sigb00, sigb01, sigb02, sigb03, sigb04, sigb10, sigb11, sigb12, sigb13, sigb14, sigb20, sigb21, sigb22, sigb23, sigb24, sigb30, sigb31, sigb32, sigb33, sigb34, sigb40, sigb41, sigb42, sigb43, sigb44, fxC1, fnC1, qC1, mul15, transpose15, mulABt1512,
    mul1512x12, Mat15.add_b00, Mat15.add_b01, Mat15.add_b02, Mat15.add_b03, Mat15.add_b04, Mat15.add_b10, Mat15.add_b11, Mat15.add_b12, Mat15.add_b13, Mat15.add_b14, Mat15.add_b20, Mat15.add_b21, Mat15.add_b22, Mat15.add_b23, Mat15.add_b24, Mat15.add_b30, Mat15.add_b31, Mat15.add_b32, Mat15.add_b33, Mat15.add_b34, Mat15.add_b40, Mat15.add_b41, Mat15.add_b42, Mat15.add_b43, Mat15.add_b44, Mat3.mk_mul_mk, Mat3.mk_add_mk, Mat3.transpose_mk,
    Mat3.mk.injEq, zero_mul, mul_zero, add_zero, zero_add, one_mul, mul_one]
  all_goals refine ⟨?_, ?_, ?_, ?_, ?_, ?_, ?_, ?_, ?_⟩ <;> ring

set_option maxHeartbeats 4000000 in
/-- Block (3,2) of the one-step recurrence of the C1 covariance
closed form. -/
theorem c1rec32 [CharZero K] (az x : K) :
    sigb32 az (x + 1) =
      (mul15 (mul15 (fxC1 az) (sigK az x)) (transpose15 (fxC1 az)) +
        mulABt1512 (mul1512x12 fnC1 qC1) fnC1).b32 := by
  simp only [sigK, sigb00, sigb01, sigb02, sigb03, sigb04, sigb10, sigb11, sigb12, sigb13, sigb14, sigb20, sigb21, sigb22, sigb23, sigb24, sigb30, sigb31, sigb32, sigb33, sigb34, sigb40, sigb41, sigb42, sigb43, sigb44, fxC1, fnC1, qC1, mul15, transpose15, mulABt1512,
    mul1512x12, Mat15.add_b00, Mat15.add_b01, Mat15.add_b02, Mat15.add_b03, Mat15.add_b04, Mat15.add_b10, Mat15.add_b11, Mat15.add_b12, Mat15.add_b13, Mat15.add_b14, Mat15.add_b20, Mat15.add_b21, Mat15.add_b22, Mat15.add_b23, Mat15.add_b24, Mat15.add_b30, Mat15.add_b31, Mat15.add_b32, Mat15.add_b33, Mat15.add_b34, Mat15.add_b40, Mat15.add_b41, Mat15.add_b42, Mat15.add_b43, Mat15.add_b44, Mat3.mk_mul_mk, Mat3.mk_add_mk, Mat3.transpose_mk,
    Mat3.mk.injEq, zero_mul, mul_zero, add_zero, zero_add, one_mul, mul_one]
  all_goals refine ⟨?_, ?_, ?_, ?_, ?_, ?_, ?_, ?_, ?_⟩ <;> ring

set_option maxHeartbeats 4000000 in
/-- Block (3,3) of the one-step recurrence of the C1 covariance
closed form. -/
theorem c1rec33 [CharZero K] (az x : K) :
    sigb33 az (x + 1) =
      (mul15 (mul15 (fxC1 az) (sigK az x)) (transpose15 (fxC1 az)) +
        mulABt1512 (mul1512x12 fnC1 qC1) fnC1).b33 := by
  simp only [sigK, sigb00, sigb01, sigb02, sigb03, sigb04, sigb10, sigb11, sigb12, sigb13, sigb14, sigb20, sigb21, sigb22, sigb23, sigb24, sigb30, sigb31, sigb32, sigb33, sigb34, sigb40, sigb41, sigb42, sigb43, sigb44, fxC1, fnC1, qC1, mul15, transpose15, mulABt1512,
    mul1512x12, Mat15.add_b00, Mat15.add_b01, Mat15.add_b02, Mat15.add_b03, Mat15.add_b04, Mat15.add_b10, Mat15.add_b11, Mat15.add_b12, Mat15.add_b13, Mat15.add_b14, Mat15.add_b20, Mat15.add_b21, Mat15.add_b22, Mat15.add_b23, Mat15.add_b24, Mat15.add_b30, Mat15.add_b31, Mat15.add_b32, Mat15.add_b33, Mat15.add_b34, Mat15.add_b40, Mat15.add_b41, Mat15.add_b42, Mat15.add_b43, Mat15.add_b44, Mat3.mk_mul_mk, Mat3.mk_add_mk, Mat3.transpose_mk,
    Mat3.mk.injEq, zero_mul, mul_zero, add_zero, zero_add, one_mul, mul_one]
  all_goals refine ⟨?_, ?_, ?_, ?_, ?_, ?_, ?_, ?_, ?_⟩ <;> ring

set_option maxHeartbeats 4000000 in
/-- Block (3,4) of the one-step recurrence of the C1 covariance
closed form. -/
theorem c1rec34 [CharZero K] (az x : K) :
    sigb34 az (x + 1) =
      (mul15 (mul15 (fxC1 az) (sigK az x)) (transpose15 (fxC1 az)) +
        mulABt1512 (mul1512x12 fnC1 qC1) fnC1).b34 := by
  simp only [sigK, sigb00, sigb01, sigb02, sigb03, sigb04, sigb10, sigb11, sigb12, sigb13, sigb14, sigb20, sigb21, sigb22, sigb23, sigb24, sigb30, sigb31, sigb32, sigb33, sigb34, sigb40, sigb41, sigb42, sigb43, sigb44, fxC1, fnC1, qC1, mul15, transpose15, mulABt1512,
    mul1512x12, Mat15.add_b00, Mat15.add_b01, Mat15.add_b02, Mat15.add_b03, Mat15.add_b04, Mat15.add_b10, Mat15.add_b11, Mat15.add_b12, Mat15.add_b13, Mat15.add_b14, Mat15.add_b20, Mat15.add_b21, Mat15.add_b22, Mat15.add_b23, Mat15.add_b24, Mat15.add_b30, Mat15.add_b31, Mat15.add_b32, Mat15.add_b33, Mat15.add_b34, Mat15.add_b40, Mat15.add_b41, Mat15.add_b42, Mat15.add_b43, Mat15.add_b44, Mat3.mk_mul_mk, Mat3.mk_add_mk, Mat3.transpose_mk,
    Mat3.mk.injEq, zero_mul, mul_zero, add_zero, zero_add, one_mul, mul_one]
  all_goals refine ⟨?_, ?_, ?_, ?_, ?_, ?_, ?_, ?_, ?_⟩ <;> ring

set_option maxHeartbeats 4000000 in
/-- Block (4,0) of the one-step recurrence of the C1 covariance
closed form. -/
theorem c1rec40 [CharZero K] (az x : K) :
    sigb40 az (x + 1) =
      (mul15 (mul15 (fxC1 az) (sigK az x)) (transpose15 (fxC1 az)) +
        mulABt1512 (mul1512x12 fnC1 qC1) fnC1).b40 := by
  simp only [sigK, sigb00, sigb01, sigb02, sigb03, sigb04, sigb10, sigb11, sigb12, sigb13, sigb14, sigb20, sigb21, sigb22, sigb23, sigb24, sigb30, sigb31, sigb32, sigb33, sigb34, sigb40, sigb41, sigb42, sigb43, sigb44, fxC1, fnC1, qC1, mul15, transpose15, mulABt1512,
    mul1512x12, Mat15.add_b00, Mat15.add_b01, Mat15.add_b02, Mat15.add_b03, Mat15.add_b04, Mat15.add_b10, Mat15.add_b11, Mat15.add_b12, Mat15.add_b13, Mat15.add_b14, Mat15.add_b20, Mat15.add_b21, Mat15.add_b22, Mat15.add_b23, Mat15.add_b24, Mat15.add_b30, Mat15.add_b31, Mat15.add_b32, Mat15.add_b33, Mat15.add_b34, Mat15.add_b40, Mat15.add_b41, Mat15.add_b42, Mat15.add_b43, Mat15.add_b44, Mat3.mk_mul_mk, Mat3.mk_add_mk, Mat3.transpose_mk,
    Mat3.mk.injEq, zero_mul, mul_zero, add_zero, zero_add, one_mul, mul_one]
  all_goals refine ⟨?_, ?_, ?_, ?_, ?_, ?_, ?_, ?_, ?_⟩ <;> ring

set_option maxHeartbeats 4000000 in
/-- Block (4,1) of the one-step recurrence of the C1 covariance
closed form. -/
theorem c1rec41 [CharZero K] (az x : K) :
    sigb41 az (x + 1) =
      (mul15 (mul15 (fxC1 az) (sigK az x)) (transpose15 (fxC1 az)) +
        mulABt1512 (mul1512x12 fnC1 qC1) fnC1).b41 := by
  simp only [sigK, sigb00, sigb01, sigb02, sigb03, sigb04, sigb10, sigb11, sigb12, sigb13, sigb14, sigb20, sigb21, sigb22, sigb23, sigb24, sigb30, sigb31, sigb32, sigb33, sigb34, sigb40, sigb41, sigb42, sigb43, sigb44, fxC1, fnC1, qC1, mul15, transpose15, mulABt1512,
    mul1512x12, Mat15.add_b00, Mat15.add_b01, Mat15.add_b02, Mat15.add_b03, Mat15.add_b04, Mat15.add_b10, Mat15.add_b11, Mat15.add_b12, Mat15.add_b13, Mat15.add_b14, Mat15.add_b20, Mat15.add_b21, Mat15.add_b22, Mat15.add_b23, Mat15.add_b24, Mat15.add_b30, Mat15.add_b31, Mat15.add_b32, Mat15.add_b33, Mat15.add_b34, Mat15.add_b40, Mat15.add_b41, Mat15.add_b42, Mat15.add_b43, Mat15.add_b44, Mat3.mk_mul_mk, Mat3.mk_add_mk, Mat3.transpose_mk,
    Mat3.mk.injEq, zero_mul, mul_zero, add_zero, zero_add, one_mul, mul_one]
  all_goals refine ⟨?_, ?_, ?_, ?_, ?_, ?_, ?_, ?_, ?_⟩ <;> ring

set_option maxHeartbeats 4000000 in
/-- Block (4,2) of the one-step recurrence of the C1 covariance
closed form. -/
theorem c1rec42 [CharZero K] (az x : K) :
    sigb42 az (x + 1) =
      (mul15 (mul15 (fxC1 az) (sigK az x)) (transpose15 (fxC1 az)) +
        mulABt1512 (mul1512x12 fnC1 qC1) fnC1).b42 := by
  simp only [sigK, sigb00, sigb01, sigb02, sigb03, sigb04, sigb10, sigb11, sigb12, sigb13, sigb14, sigb20, sigb21, sigb22, sigb23, sigb24, sigb30, sigb31, sigb32, sigb33, sigb34, sigb40, sigb41, sigb42, sigb43, sigb44, fxC1, fnC1, qC1, mul15, transpose15, mulABt1512,
    mul1512x12, Mat15.add_b00, Mat15.add_b01, Mat15.add_b02, Mat15.add_b03, Mat15.add_b04, Mat15.add_b10, Mat15.add_b11, Mat15.add_b12, Mat15.add_b13, Mat15.add_b14, Mat15.add_b20, Mat15.add_b21, Mat15.add_b22, Mat15.add_b23, Mat15.add_b24, Mat15.add_b30, Mat15.add_b31, Mat15.add_b32, Mat15.add_b33, Mat15.add_b34, Mat15.add_b40, Mat15.add_b41, Mat15.add_b42, Mat15.add_b43, Mat15.add_b44, Mat3.mk_mul_mk, Mat3.mk_add_mk, Mat3.transpose_mk,
    Mat3.mk.injEq, zero_mul, mul_zero, add_zero, zero_add, one_mul, mul_one]
  all_goals refine ⟨?_, ?_, ?_, ?_, ?_, ?_, ?_, ?_, ?_⟩ <;> ring

set_option maxHeartbeats 4000000 in
/-- Block (4,3) of the one-step recurrence of the C1 covariance
closed form. -/
theorem c1rec43 [CharZero K] (az x : K) :
    sigb43 az (x + 1) =
      (mul15 (mul15 (fxC1 az) (sigK az x)) (transpose15 (fxC1 az)) +
        mulABt1512 (mul1512x12 fnC1 qC1) fnC1).b43 := by
  simp only [sigK, sigb00, sigb01, sigb02, sigb03, sigb04, sigb10, sigb11, sigb12, sigb13, sigb14, sigb20, sigb21, sigb22, sigb23, sigb24, sigb30, sigb31, sigb32, sigb33, sigb34, sigb40, sigb41, sigb42, sigb43, sigb44, fxC1, fnC1, qC1, mul15, transpose15, mulABt1512,
    mul1512x12, Mat15.add_b00, Mat15.add_b01, Mat15.add_b02, Mat15.add_b03, Mat15.add_b04, Mat15.add_b10, Mat15.add_b11, Mat15.add_b12, Mat15.add_b13, Mat15.add_b14, Mat15.add_b20, Mat15.add_b21, Mat15.add_b22, Mat15.add_b23, Mat15.add_b24, Mat15.add_b30, Mat15.add_b31, Mat15.add_b32, Mat15.add_b33, Mat15.add_b34, Mat15.add_b40, Mat15.add_b41, Mat15.add_b42, Mat15.add_b43, Mat15.add_b44, Mat3.mk_mul_mk, Mat3.mk_add_mk, Mat3.transpose_mk,
    Mat3.mk.injEq, zero_mul, mul_zero, add_zero, zero_add, one_mul, mul_one]
  all_goals refine ⟨?_, ?_, ?_, ?_, ?_, ?_, ?_, ?_, ?_⟩ <;> ring

set_option maxHeartbeats 4000000 in
/-- Block (4,4) of the one-step recurrence of the C1 covariance
closed form. -/
theorem c1rec44 [CharZero K] (az x : K) :
    sigb44 az (x + 1) =
      (mul15 (mul15 (fxC1 az) (sigK az x)) (transpose15 (fxC1 az)) +
        mulABt1512 (mul1512x12 fnC1 qC1) fnC1).b44 := by
  simp only [sigK, sigb00, sigb01, sigb02, sigb03, sigb04, sigb10, sigb11, sigb12, sigb13, sigb14, sigb20, sigb21, sigb22, sigb23, sigb24, sigb30, sigb31, sigb32, sigb33, sigb34, sigb40, sigb41, sigb42, sigb43, sigb44, fxC1, fnC1, qC1, mul15, transpose15, mulABt1512,
    mul1512x12, Mat15.add_b00, Mat15.add_b01, Mat15.add_b02, Mat15.add_b03, Mat15.add_b04, Mat15.add_b10, Mat15.add_b11, Mat15.add_b12, Mat15.add_b13, Mat15.add_b14, Mat15.add_b20, Mat15.add_b21, Mat15.add_b22, Mat15.add_b23, Mat15.add_b24, Mat15.add_b30, Mat15.add_b31, Mat15.add_b32, Mat15.add_b33, Mat15.add_b34, Mat15.add_b40, Mat15.add_b41, Mat15.add_b42, Mat15.add_b43, Mat15.add_b44, Mat3.mk_mul_mk, Mat3.mk_add_mk, Mat3.transpose_mk,
    Mat3.mk.injEq, zero_mul, mul_zero, add_zero, zero_add, one_mul, mul_one]
  all_goals refine ⟨?_, ?_, ?_, ?_, ?_, ?_, ?_, ?_, ?_⟩ <;> ring

set_option maxHeartbeats 4000000 in
/-- The closed form `sigmaC1` satisfies the covariance recurrence of
`propagate_covariance` at the constant C1 linearization point. -/
theorem sigmaC1_succ [CharZero K] (az : K) (n : ℕ) :
    sigmaC1 az (n + 1) =
      mul15 (mul15 (fxC1 az) (sigmaC1 az n)) (transpose15 (fxC1 az)) +
        mulABt1512 (mul1512x12 fnC1 qC1) fnC1 := by
  have hc : ((n + 1 : ℕ) : K) = (n : K) + 1 := by push_cast; ring
  simp only [sigmaC1]
  apply Mat15.ext
  · show sigb00 az ((n + 1 : ℕ) : K) = _
    rw [hc]
    exact c1rec00 az (n : K)
  · show sigb01 az ((n + 1 : ℕ) : K) = _
    rw [hc]
    exact c1rec01 az (n : K)
  · show sigb02 az ((n + 1 : ℕ) : K) = _
    rw [hc]
    exact c1rec02 az (n : K)
  · show sigb03 az ((n + 1 : ℕ) : K) = _
    rw [hc]
    exact c1rec03 az (n : K)
  · show sigb04 az ((n + 1 : ℕ) : K) = _
    rw [hc]
    exact c1rec04 az (n : K)
  · show sigb10 az ((n + 1 : ℕ) : K) = _
    rw [hc]
    exact c1rec10 az (n : K)
  · show sigb11 az ((n + 1 : ℕ) : K) = _
    rw [hc]
    exact c1rec11 az (n : K)
  · show sigb12 az ((n + 1 : ℕ) : K) = _
    rw [hc]
    exact c1rec12 az (n : K)
  · show sigb13 az ((n + 1 : ℕ) : K) = _
    rw [hc]
    exact c1rec13 az (n : K)
  · show sigb14 az ((n + 1 : ℕ) : K) = _
    rw [hc]
    exact c1rec14 az (n : K)
  · show sigb20 az ((n + 1 : ℕ) : K) = _
    rw [hc]
    exact c1rec20 az (n : K)
  · show sigb21 az ((n + 1 : ℕ) : K) = _
    rw [hc]
    exact c1rec21 az (n : K)
  · show sigb22 az ((n + 1 : ℕ) : K) = _
    rw [hc]
    exact c1rec22 az (n : K)
  · show sigb23 az ((n + 1 : ℕ) : K) = _
    rw [hc]
    exact c1rec23 az (n : K)
  · show sigb24 az ((n + 1 : ℕ) : K) = _
    rw [hc]
    exact c1rec24 az (n : K)
  · show sigb30 az ((n + 1 : ℕ) : K) = _
    rw [hc]
    exact c1rec30 az (n : K)
  · show sigb31 az ((n + 1 : ℕ) : K) = _
    rw [hc]
    exact c1rec31 az (n : K)
  · show sigb32 az ((n + 1 : ℕ) : K) = _
    rw [hc]
    exact c1rec32 az (n : K)
  · show sigb33 az ((n + 1 : ℕ) : K) = _
    rw [hc]
    exact c1rec33 az (n : K)
  · show sigb34 az ((n + 1 : ℕ) : K) = _
    rw [hc]
    exact c1rec34 az (n : K)
  · show sigb40 az ((n + 1 : ℕ) : K) = _
    rw [hc]
    exact c1rec40 az (n : K)
  · show sigb41 az ((n + 1 : ℕ) : K) = _
    rw [hc]
    exact c1rec41 az (n : K)
  · show sigb42 az ((n + 1 : ℕ) : K) = _
    rw [hc]
    exact c1rec42 az (n : K)
  · show sigb43 az ((n + 1 : ℕ) : K) = _
    rw [hc]
    exact c1rec43 az (n : K)
  · show sigb44 az ((n + 1 : ℕ) : K) = _
    rw [hc]
    exact c1rec44 az (n : K)

end LidarEskf
